import Mathlib

/-!
# DS18x20 demo program (`main.c`): shallow embedding and checked properties

The program talks to the 1-Wire / DS18x20 driver through external functions
(`DS18X20_find_sensor`, `DS18X20_start_meas`, ...).  Their code and the header
that defines the constants are not part of the program file, so

* the constants of the header are a parameter (`Header`),
* the external functions are a parameter (`Driver W`), arbitrary functions on
  an abstract world `W` (explicit state passing),
* every operation the program performs is recorded in a trace of `Ev`.

Machine integers (`uint8_t`) are `Nat` with an explicit `% 256` where the
program does arithmetic on them.
-/

set_option maxRecDepth 20000

namespace DS18X20Demo

/-! ## Constants -/

/-- The bound of the sensor table, `#define MAXSENSORS 5`. -/
def MAXSENSORS : Nat := 5

/-- Modelled from the spec: `OW_ROMCODE_SIZE` is defined in the missing header;
the spec fixes a ROM code at 8 bytes (family code, 48-bit serial, CRC-8). -/
def OW_ROMCODE_SIZE : Nat := 8

/-- Modelled from the spec: `DS18X20_SP_SIZE` is defined in the missing header;
the spec lists the scratchpad bytes as temperature LSB, temperature MSB, TH, TL,
configuration, 3 reserved bytes, CRC. -/
def DS18X20_SP_SIZE : Nat := 9

/-- Modelled from the spec: `DS18X20_TH_REG` is defined in the missing header;
in the spec's scratchpad layout TH is the third byte. -/
def DS18X20_TH_REG : Nat := 2

/-- Modelled from the spec: `DS18X20_TL_REG` is defined in the missing header;
in the spec's scratchpad layout TL is the fourth byte. -/
def DS18X20_TL_REG : Nat := 3

/-- The constants and build switches that `main.c` takes from the driver
header, which is not part of the program file.  They are a parameter of the
embedding. -/
structure Header where
  OW_SEARCH_FIRST : Nat
  OW_LAST_DEVICE : Nat
  OW_PRESENCE_ERR : Nat
  OW_DATA_ERR : Nat
  DS18X20_OK : Nat
  DS18X20_POWER_PARASITE : Nat
  DS18S20_FAMILY_CODE : Nat
  DS1822_FAMILY_CODE : Nat
  DS18B20_TCONV_12BIT : Nat
  DS18B20_12_BIT : Nat
  OW_ONE_BUS : Bool
  DS18X20_EEPROMSUPPORT : Bool
  DS18X20_VERBOSE : Bool
  DS18X20_MAX_RESOLUTION : Bool
deriving DecidableEq, Repr

/-! ## Operation trace -/

/-- One observable operation of the program.  A pointer `&gSensorIDs[j][0]`
is recorded as `some j`, the `NULL` pointer as `none`; calls whose result the
program can test carry that result; `store_id j` is the copy loop writing row
`j` of `gSensorIDs`. -/
inductive Ev where
  | printf (s : String)
  | printf_d (n : Int)
  | call_search_sensors
  | ow_reset
  | find_sensor (diffIn diffOut : Nat) (idOut : List Nat)
  | store_id (row : Nat)
  | start_meas (target : Option Nat) (res : Nat)
  | delay_ms (ms : Nat)
  | read_decicelsius (row : Nat) (res : Nat)
  | read_decicelsius_single (familycode : Nat) (res : Nat)
  | read_maxres (row : Nat) (res : Nat)
  | get_power_status (row : Nat) (res : Nat)
  | read_scratchpad (row : Nat) (sp : List Nat)
  | write_scratchpad (row : Nat) (th tl conf : Nat)
  | scratchpad_to_eeprom (withPower : Nat) (row : Nat)
  | eeprom_to_scratchpad (row : Nat)
  | serial_init
  | ow_set_bus
  | sei
deriving DecidableEq, Repr

/-! ## External driver -/

/-- The external functions called by `main.c`, as state-passing functions on a
world `W`.  Out-parameters (`diff`, `id`, `sp`, `decicelsius`) are passed in
with their old content and returned with their new content. -/
structure Driver (W : Type) where
  ow_reset : W → W
  DS18X20_find_sensor : W → Nat → List Nat → W × Nat × List Nat
  DS18X20_start_meas : W → Nat → Option (List Nat) → W × Nat
  DS18X20_read_decicelsius : W → List Nat → Int → W × Nat × Int
  DS18X20_read_decicelsius_single : W → Nat → Int → W × Nat × Int
  DS18X20_read_maxres : W → List Nat → Int → W × Nat × Int
  DS18X20_get_power_status : W → List Nat → W × Nat
  DS18X20_read_scratchpad : W → List Nat → List Nat → Nat → W × List Nat
  DS18X20_write_scratchpad : W → List Nat → Nat → Nat → Nat → W
  DS18X20_scratchpad_to_eeprom : W → Nat → List Nat → W
  DS18X20_eeprom_to_scratchpad : W → List Nat → W
  delay_ms : W → Nat → W

/-! ## `search_sensors` -/

/-- Row `j` of `gSensorIDs` (`&gSensorIDs[j][0]`). -/
def row (tbl : List (List Nat)) (j : Nat) : List Nat := tbl.getD j []

/-- The copy loop `for ( i=0; i < OW_ROMCODE_SIZE; i++ ) gSensorIDs[nSensors][i] = id[i];`
on one row, at index `i` with `n` iterations left. -/
def copy_id (id : List Nat) : Nat → Nat → List Nat → List Nat
  | 0, _, r => r
  | n + 1, i, r => copy_id id n (i + 1) (r.set i (id.getD i 0))

/-- State of the `while` loop of `search_sensors`. -/
structure SearchState (W : Type) where
  world : W
  gSensorIDs : List (List Nat)
  id : List Nat
  diff : Nat
  nSensors : Nat

/-- The `while ( diff != OW_LAST_DEVICE && nSensors < MAXSENSORS )` loop of
`search_sensors`, unrolled at most `fuel` times; both `break`s leave the loop
with the current state.  The result is the final state and the operations
performed.  `search_loop` supplies the loop variant `MAXSENSORS - nSensors` as
`fuel`, and `search_loop_unfold` shows that this is the `while` loop. -/
def search_loop_fuel {W : Type} (h : Header) (d : Driver W) :
    Nat → SearchState W → SearchState W × List Ev
  | 0, s => (s, [])
  | fuel + 1, s =>
    if s.diff ≠ h.OW_LAST_DEVICE ∧ s.nSensors < MAXSENSORS then
      let r := d.DS18X20_find_sensor s.world s.diff s.id
      if r.2.1 = h.OW_PRESENCE_ERR then
        ({ s with world := r.1, diff := r.2.1, id := r.2.2 },
         [Ev.find_sensor s.diff r.2.1 r.2.2, Ev.printf "No Sensor found\r\n"])
      else if r.2.1 = h.OW_DATA_ERR then
        ({ s with world := r.1, diff := r.2.1, id := r.2.2 },
         [Ev.find_sensor s.diff r.2.1 r.2.2, Ev.printf "Bus Error\r\n"])
      else
        let t := search_loop_fuel h d fuel
          { world := r.1
            gSensorIDs := s.gSensorIDs.set s.nSensors
              (copy_id r.2.2 OW_ROMCODE_SIZE 0 (row s.gSensorIDs s.nSensors))
            id := r.2.2
            diff := r.2.1
            nSensors := (s.nSensors + 1) % 256 }
        (t.1, Ev.find_sensor s.diff r.2.1 r.2.2 :: Ev.store_id s.nSensors :: t.2)
    else (s, [])

/-- The `while` loop of `search_sensors` from state `s`. -/
def search_loop {W : Type} (h : Header) (d : Driver W) (s : SearchState W) :
    SearchState W × List Ev :=
  search_loop_fuel h d (MAXSENSORS - s.nSensors) s

/-- Result of `search_sensors`: the world and table it leaves, the returned
count, and the operations performed. -/
structure SearchResult (W : Type) where
  world : W
  gSensorIDs : List (List Nat)
  ret : Nat
  trace : List Ev

/-- The function `static uint8_t search_sensors(void)`; `id0` is the
indeterminate initial content of the local buffer `id`. -/
def search_sensors {W : Type} (h : Header) (d : Driver W) (w : W)
    (tbl : List (List Nat)) (id0 : List Nat) : SearchResult W :=
  let t := search_loop h d
    { world := d.ow_reset w
      gSensorIDs := tbl
      id := id0
      diff := h.OW_SEARCH_FIRST
      nSensors := 0 }
  { world := t.1.world
    gSensorIDs := t.1.gSensorIDs
    ret := t.1.nSensors
    trace := [Ev.call_search_sensors, Ev.printf "Scanning Bus for DS18X20\r\n", Ev.ow_reset]
      ++ t.2 }

/-! ## `th_tl_dump` and `eeprom_test` -/

/-- The function `static void th_tl_dump(uint8_t *sp)`: returns the world, the
new content of `sp` and the operations performed. -/
def th_tl_dump {W : Type} (d : Driver W) (w : W) (tbl : List (List Nat)) (sp : List Nat) :
    W × List Nat × List Ev :=
  let r := d.DS18X20_read_scratchpad w (row tbl 0) sp DS18X20_SP_SIZE
  (r.1, r.2,
   [Ev.read_scratchpad 0 r.2,
    Ev.printf "TH/TL in scratchpad of sensor 1 now : ",
    Ev.printf_d (r.2.getD DS18X20_TH_REG 0),
    Ev.printf " / ",
    Ev.printf_d (r.2.getD DS18X20_TL_REG 0),
    Ev.printf "\r\n"])

/-- Result of `eeprom_test`: the world it leaves, the scratchpad content read
at the verification step, the values `th` and `tl` it was compared with, and
the operations performed. -/
structure EepromResult (W : Type) where
  world : W
  sp_verify : List Nat
  th : Nat
  tl : Nat
  trace : List Ev

/-- The function `static void eeprom_test(void)`; `sp0` is the indeterminate
initial content of the local buffer `sp`. -/
def eeprom_test {W : Type} (h : Header) (d : Driver W) (w : W) (tbl : List (List Nat))
    (sp0 : List Nat) : EepromResult W :=
  let d1 := th_tl_dump d w tbl sp0
  let th0 := d1.2.1.getD DS18X20_TH_REG 0
  let tl0 := d1.2.1.getD DS18X20_TL_REG 0
  let tl := (tl0 + 1) % 256
  let th := (th0 + 1) % 256
  let w2 := d.DS18X20_write_scratchpad d1.1 (row tbl 0) th tl h.DS18B20_12_BIT
  let d2 := th_tl_dump d w2 tbl d1.2.1
  let w3 := d.DS18X20_scratchpad_to_eeprom d2.1 h.DS18X20_POWER_PARASITE (row tbl 0)
  let w4 := d.DS18X20_write_scratchpad w3 (row tbl 0) 0 0 h.DS18B20_12_BIT
  let d3 := th_tl_dump d w4 tbl d2.2.1
  let w5 := d.DS18X20_eeprom_to_scratchpad d3.1 (row tbl 0)
  let r := d.DS18X20_read_scratchpad w5 (row tbl 0) d3.2.1 DS18X20_SP_SIZE
  let verdict :=
    if th = r.2.getD DS18X20_TH_REG 0 ∧ tl = r.2.getD DS18X20_TL_REG 0 then
      Ev.printf "TH and TL verified\r\n"
    else
      Ev.printf "verify failed\r\n"
  let d4 := th_tl_dump d r.1 tbl r.2
  { world := d4.1
    sp_verify := r.2
    th := th
    tl := tl
    trace :=
      [Ev.printf "DS18x20 EEPROM support test for first sensor\r\n"] ++ d1.2.2 ++
      [Ev.write_scratchpad 0 th tl h.DS18B20_12_BIT,
       Ev.printf "TH+1 and TL+1 written to scratchpad\r\n"] ++ d2.2.2 ++
      [Ev.scratchpad_to_eeprom h.DS18X20_POWER_PARASITE 0,
       Ev.printf "scratchpad copied to DS18x20 EEPROM\r\n",
       Ev.write_scratchpad 0 0 0 h.DS18B20_12_BIT,
       Ev.printf "TH and TL in scratchpad set to 0\r\n"] ++ d3.2.2 ++
      [Ev.eeprom_to_scratchpad 0,
       Ev.printf "DS18x20 EEPROM copied back to scratchpad\r\n",
       Ev.read_scratchpad 0 r.2,
       verdict] ++ d4.2.2 }

/-! ## `main` -/

/-- The variables of `main` together with the global table and the world.
`id` and `sp` stand for the indeterminate stack content that `search_sensors`
and `eeprom_test` find in their local buffers. -/
structure MainState (W : Type) where
  world : W
  gSensorIDs : List (List Nat)
  nSensors : Nat
  decicelsius : Int
  temp_eminus4 : Int
  error : Nat
  id : List Nat
  sp : List Nat

/-- The statement `error++` on the `uint8_t` counter. -/
def incr_error {W : Type} (s : MainState W) : MainState W :=
  { s with error := (s.error + 1) % 256 }

/-- The statement `nSensors = search_sensors();`. -/
def rescan {W : Type} (h : Header) (d : Driver W) (s : MainState W) : MainState W × List Ev :=
  let r := search_sensors h d s.world s.gSensorIDs s.id
  ({ s with world := r.world, gSensorIDs := r.gSensorIDs, nSensors := r.ret }, r.trace)

/-- Body of `for ( i = nSensors; i > 0; i-- )` (lines 215-233) for one `i`. -/
def sensor_step {W : Type} (h : Header) (d : Driver W) (i : Nat) (s : MainState W) :
    MainState W × List Ev :=
  let r := d.DS18X20_start_meas s.world h.DS18X20_POWER_PARASITE
    (some (row s.gSensorIDs (i - 1)))
  if r.2 = h.DS18X20_OK then
    let w1 := d.delay_ms r.1 h.DS18B20_TCONV_12BIT
    let q := d.DS18X20_read_decicelsius w1 (row s.gSensorIDs (i - 1)) s.decicelsius
    if q.2.1 = h.DS18X20_OK then
      ({ s with world := q.1, decicelsius := q.2.2 },
       [Ev.start_meas (some (i - 1)) r.2, Ev.delay_ms h.DS18B20_TCONV_12BIT,
        Ev.printf "Sensor# ", Ev.printf_d i, Ev.printf " = ",
        Ev.read_decicelsius (i - 1) q.2.1, Ev.printf_d q.2.2, Ev.printf "\r\n"])
    else
      (incr_error { s with world := q.1, decicelsius := q.2.2 },
       [Ev.start_meas (some (i - 1)) r.2, Ev.delay_ms h.DS18B20_TCONV_12BIT,
        Ev.printf "Sensor# ", Ev.printf_d i, Ev.printf " = ",
        Ev.read_decicelsius (i - 1) q.2.1, Ev.printf "CRC Error (lost connection?)",
        Ev.printf "\r\n"])
  else
    (incr_error { s with world := r.1 },
     [Ev.start_meas (some (i - 1)) r.2, Ev.printf "Start meas. failed (short circuit?)"])

/-- The loop `for ( i = nSensors; i > 0; i-- )` (lines 214-234), entered with
`i` as given. -/
def sensor_by_sensor {W : Type} (h : Header) (d : Driver W) :
    Nat → MainState W → MainState W × List Ev
  | 0, s => (s, [])
  | i + 1, s =>
    let a := sensor_step h d (i + 1) s
    let b := sensor_by_sensor h d i a.1
    (b.1, a.2 ++ b.2)

/-- Body of the first `for ( i = 0; i < nSensors; i++ )` of the broadcast part
(lines 241-252) for one `i`. -/
def read_step {W : Type} (h : Header) (d : Driver W) (i : Nat) (s : MainState W) :
    MainState W × List Ev :=
  let q := d.DS18X20_read_decicelsius s.world (row s.gSensorIDs i) s.decicelsius
  if q.2.1 = h.DS18X20_OK then
    ({ s with world := q.1, decicelsius := q.2.2 },
     [Ev.printf "Sensor# ", Ev.printf_d (i + 1), Ev.printf " = ",
      Ev.read_decicelsius i q.2.1, Ev.printf_d q.2.2, Ev.printf "\r\n"])
  else
    (incr_error { s with world := q.1, decicelsius := q.2.2 },
     [Ev.printf "Sensor# ", Ev.printf_d (i + 1), Ev.printf " = ",
      Ev.read_decicelsius i q.2.1, Ev.printf "CRC Error (lost connection?)",
      Ev.printf "\r\n"])

/-- Body of the `DS18X20_MAX_RESOLUTION` loop (lines 257-268) for one `i`. -/
def maxres_step {W : Type} (h : Header) (d : Driver W) (i : Nat) (s : MainState W) :
    MainState W × List Ev :=
  let q := d.DS18X20_read_maxres s.world (row s.gSensorIDs i) s.temp_eminus4
  if q.2.1 = h.DS18X20_OK then
    ({ s with world := q.1, temp_eminus4 := q.2.2 },
     [Ev.printf "Sensor# ", Ev.printf_d (i + 1), Ev.printf " = ",
      Ev.read_maxres i q.2.1, Ev.printf_d q.2.2, Ev.printf "\r\n"])
  else
    (incr_error { s with world := q.1, temp_eminus4 := q.2.2 },
     [Ev.printf "Sensor# ", Ev.printf_d (i + 1), Ev.printf " = ",
      Ev.read_maxres i q.2.1, Ev.printf "CRC Error (lost connection?)",
      Ev.printf "\r\n"])

/-- A loop `for ( i = 0; i < nSensors; i++ ) body`, at index `i` with
`todo = nSensors - i` iterations left (the body changes neither `i` nor
`nSensors`, and `i < nSensors <= 255` keeps `i++` from wrapping). -/
def for_up {W : Type} (body : Nat → MainState W → MainState W × List Ev) :
    Nat → Nat → MainState W → MainState W × List Ev
  | 0, _, s => (s, [])
  | todo + 1, i, s =>
    let a := body i s
    let b := for_up body todo (i + 1) a.1
    (b.1, a.2 ++ b.2)

/-- The read loops of the broadcast part (lines 240-269): one
`DS18X20_read_decicelsius` per sensor, then, in a `DS18X20_MAX_RESOLUTION`
build, one `DS18X20_read_maxres` per sensor. -/
def read_loops {W : Type} (h : Header) (d : Driver W) (s : MainState W) :
    MainState W × List Ev :=
  let a := for_up (read_step h d) s.nSensors 0 s
  let b := if h.DS18X20_MAX_RESOLUTION then for_up (maxres_step h d) s.nSensors 0 a.1
           else (a.1, [])
  (b.1, a.2 ++ b.2)

/-- The broadcast part of a cycle (lines 236-275). -/
def read_all {W : Type} (h : Header) (d : Driver W) (s : MainState W) : MainState W × List Ev :=
  let r := d.DS18X20_start_meas s.world h.DS18X20_POWER_PARASITE none
  if r.2 = h.DS18X20_OK then
    let a := read_loops h d { s with world := d.delay_ms r.1 h.DS18B20_TCONV_12BIT }
    (a.1,
     [Ev.printf "Convert_T for all Sensors and Read Sensor by Sensor\r\n",
      Ev.start_meas none r.2, Ev.delay_ms h.DS18B20_TCONV_12BIT] ++ a.2)
  else
    (incr_error { s with world := r.1 },
     [Ev.printf "Convert_T for all Sensors and Read Sensor by Sensor\r\n",
      Ev.start_meas none r.2, Ev.printf "Start meas. failed (short circuit?)"])

/-- Lines 207-275 of a cycle: the error counter is cleared, a missing sensor is
counted, then the sensor-by-sensor part and the broadcast part run. -/
def measure {W : Type} (h : Header) (d : Driver W) (s : MainState W) : MainState W × List Ev :=
  let s0 := { s with error := 0 }
  let s1 := if s0.nSensors = 0 then incr_error s0 else s0
  let a := sensor_by_sensor h d s1.nSensors s1
  let b := read_all h d a.1
  (b.1,
   [Ev.printf "Convert_T and Read Sensor by Sensor (reverse order)\r\n"] ++ a.2 ++ b.2)

/-- Lines 278-283 of a cycle: the `DS18X20_VERBOSE` block, whose
`DS18X20_start_meas` result is discarded. -/
def verbose_block {W : Type} (h : Header) (d : Driver W) (s : MainState W) :
    MainState W × List Ev :=
  if h.DS18X20_VERBOSE then
    let r := d.DS18X20_start_meas s.world h.DS18X20_POWER_PARASITE none
    ({ s with world := d.delay_ms r.1 h.DS18B20_TCONV_12BIT },
     [Ev.printf "Verbose output\r\n", Ev.start_meas none r.2,
      Ev.delay_ms h.DS18B20_TCONV_12BIT])
  else (s, [])

/-- Lines 285-293 of a cycle: `if ( error ) { rescan; error = 0; }` and the
3 s pause. -/
def recover {W : Type} (h : Header) (d : Driver W) (s : MainState W) : MainState W × List Ev :=
  if s.error ≠ 0 then
    let r := rescan h d s
    ({ r.1 with world := d.delay_ms r.1.world 3000, error := 0 },
     [Ev.printf "*** problems - rescanning bus ..."] ++ r.2 ++
     [Ev.printf_d r.1.nSensors, Ev.printf " DS18X20 Sensor(s) available\r\n",
      Ev.delay_ms 3000])
  else
    ({ s with world := d.delay_ms s.world 3000 }, [Ev.delay_ms 3000])

/-- One pass of the body of `for(;;)` (lines 205-294). -/
def main_loop_body {W : Type} (h : Header) (d : Driver W) (s : MainState W) :
    MainState W × List Ev :=
  let a := measure h d s
  let b := verbose_block h d a.1
  let c := recover h d b.1
  (c.1, a.2 ++ b.2 ++ c.2)

/-- Body of the `DS18X20_VERBOSE` listing loop (lines 158-163) for one `i`. -/
def list_step {W : Type} (i : Nat) (s : MainState W) : MainState W × List Ev :=
  (s, [Ev.printf "# in Bus :", Ev.printf_d (i + 1), Ev.printf " : "])

/-- Body of the classification loop (lines 166-185) for one `i`. -/
def classify_step {W : Type} (h : Header) (d : Driver W) (i : Nat) (s : MainState W) :
    MainState W × List Ev :=
  let fam := (row s.gSensorIDs i).getD 0 0
  let r := d.DS18X20_get_power_status s.world (row s.gSensorIDs i)
  ({ s with world := r.1 },
   [Ev.printf "Sensor# ", Ev.printf_d (i + 1), Ev.printf " is a ",
    Ev.printf (if fam = h.DS18S20_FAMILY_CODE then "DS18S20/DS1820"
               else if fam = h.DS1822_FAMILY_CODE then "DS1822" else "DS18B20"),
    Ev.printf " which is ",
    Ev.get_power_status i r.2,
    Ev.printf (if r.2 = h.DS18X20_POWER_PARASITE then "parasite" else "externally"),
    Ev.printf " powered\r\n"])

/-- The single-sensor demonstration (lines 193-202); the result of
`DS18X20_start_meas` and of the read is discarded. -/
def single_demo {W : Type} (h : Header) (d : Driver W) (s : MainState W) :
    MainState W × List Ev :=
  if s.nSensors = 1 then
    let i := (row s.gSensorIDs 0).getD 0 0
    let r := d.DS18X20_start_meas s.world h.DS18X20_POWER_PARASITE none
    let w1 := d.delay_ms r.1 h.DS18B20_TCONV_12BIT
    let q := d.DS18X20_read_decicelsius_single w1 i s.decicelsius
    ({ s with world := q.1, decicelsius := q.2.2 },
     [Ev.printf "There is only one sensor -> Demo of \"DS18X20_read_decicelsius_single\":\r\n",
      Ev.start_meas none r.2, Ev.delay_ms h.DS18B20_TCONV_12BIT,
      Ev.read_decicelsius_single i q.2.1, Ev.printf_d q.2.2, Ev.printf "\r\n"])
  else (s, [])

/-- Lines 187-191: `eeprom_test` when the build has EEPROM support and a sensor
was found. -/
def eeprom_block {W : Type} (h : Header) (d : Driver W) (s : MainState W) :
    MainState W × List Ev :=
  if h.DS18X20_EEPROMSUPPORT ∧ s.nSensors > 0 then
    let r := eeprom_test h d s.world s.gSensorIDs s.sp
    ({ s with world := r.world }, r.trace)
  else (s, [])

/-- Lines 157-164: the listing loop of a `DS18X20_VERBOSE` build. -/
def list_block {W : Type} (h : Header) (s : MainState W) : MainState W × List Ev :=
  if h.DS18X20_VERBOSE then for_up list_step s.nSensors 0 s else (s, [])

/-- Lines 142-202 of `main`: everything before the `for(;;)` loop. -/
def main_init {W : Type} (h : Header) (d : Driver W) (s : MainState W) : MainState W × List Ev :=
  let a := rescan h d s
  let b := list_block h a.1
  let c := for_up (classify_step h d) b.1.nSensors 0 b.1
  let e := eeprom_block h d c.1
  let f := single_demo h d e.1
  (f.1,
   [Ev.serial_init] ++ (if h.OW_ONE_BUS then [] else [Ev.ow_set_bus]) ++
   [Ev.sei,
    Ev.printf "DS18X20 1-Wire-Reader Demo by Martin Thomas\r\n",
    Ev.printf "-------------------------------------------"] ++ a.2 ++
   [Ev.printf_d a.1.nSensors, Ev.printf " DS18X20 Sensor(s) available:\r\n"] ++
   b.2 ++ c.2 ++ e.2 ++ f.2)

/-- The first `k` passes of the `for(;;)` loop from state `s`. -/
def main_cycles {W : Type} (h : Header) (d : Driver W) : Nat → MainState W → MainState W × List Ev
  | 0, s => (s, [])
  | k + 1, s =>
    let a := main_loop_body h d s
    let b := main_cycles h d k a.1
    (b.1, a.2 ++ b.2)

/-- The function `int main( void )`, observed until the end of the `k`-th pass
of its endless loop. -/
def main {W : Type} (h : Header) (d : Driver W) (k : Nat) (s : MainState W) :
    MainState W × List Ev :=
  let a := main_init h d s
  let b := main_cycles h d k a.1
  (b.1, a.2 ++ b.2)

/-! ## CRC-8 of the specification -/

/-- Modelled from the spec: one step of the CRC-8 shift register of section 4.2
(the CRC routine is not part of the program file): if (register XOR bit) has
its low bit set, register = (register >> 1) XOR 0x8C, else register >>= 1. -/
def crc8_bit (reg bit : Nat) : Nat :=
  if (reg ^^^ bit) % 2 = 1 then (reg >>> 1) ^^^ 0x8C else reg >>> 1

/-- Modelled from the spec: the CRC-8 register after one input byte, taken bit
by bit, least significant bit first. -/
def crc8_byte (reg byte : Nat) : Nat :=
  (List.range 8).foldl (fun r k => crc8_bit r ((byte >>> k) % 2)) reg

/-- Modelled from the spec: `compute(bytes)` of section 4.2, register starting
at 0. -/
def crc8 (bytes : List Nat) : Nat := bytes.foldl crc8_byte 0

/-- Modelled from the spec: the ROM-code invariant of section 3, CRC-8 over the
first 7 bytes equals byte 8. -/
def rom_crc_ok (code : List Nat) : Prop := crc8 (code.take 7) = code.getD 7 0

instance (code : List Nat) : Decidable (rom_crc_ok code) := by
  unfold rom_crc_ok; infer_instance

/-! ## Concrete header and drivers used to evaluate the program -/

/-- Constants as in the DS18x20 library the demo was written for, all optional
parts built in. -/
def avrHeader : Header where
  OW_SEARCH_FIRST := 0xFF
  OW_LAST_DEVICE := 0x00
  OW_PRESENCE_ERR := 0xFF
  OW_DATA_ERR := 0xFE
  DS18X20_OK := 0
  DS18X20_POWER_PARASITE := 0
  DS18S20_FAMILY_CODE := 0x10
  DS1822_FAMILY_CODE := 0x22
  DS18B20_TCONV_12BIT := 750
  DS18B20_12_BIT := 0x60
  OW_ONE_BUS := false
  DS18X20_EEPROMSUPPORT := true
  DS18X20_VERBOSE := true
  DS18X20_MAX_RESOLUTION := true

/-- A scripted world: the answers `DS18X20_find_sensor` still has to give and
the result codes the measuring calls (`DS18X20_start_meas` and the temperature
reads) still have to return. -/
structure Script where
  finds : List (Nat × List Nat)
  results : List Nat
deriving DecidableEq, Repr

/-- Take the next result code of a script; an exhausted script answers `dflt`. -/
def Script.next (w : Script) (dflt : Nat) : Script × Nat :=
  match w.results with
  | [] => (w, dflt)
  | r :: rs => ({ w with results := rs }, r)

/-- The driver that plays a `Script`: `DS18X20_find_sensor` answers from
`finds` (an exhausted script reports `OW_PRESENCE_ERR`), the measuring calls
answer from `results` (an exhausted script reports `DS18X20_OK`). -/
def scriptDriver (h : Header) : Driver Script where
  ow_reset := fun w => w
  DS18X20_find_sensor := fun w _ idb =>
    match w.finds with
    | [] => (w, h.OW_PRESENCE_ERR, idb)
    | (df, c) :: fs => ({ w with finds := fs }, df, c)
  DS18X20_start_meas := fun w _ _ => w.next h.DS18X20_OK
  DS18X20_read_decicelsius := fun w _ v => ((w.next h.DS18X20_OK).1, (w.next h.DS18X20_OK).2, v)
  DS18X20_read_decicelsius_single := fun w _ v =>
    ((w.next h.DS18X20_OK).1, (w.next h.DS18X20_OK).2, v)
  DS18X20_read_maxres := fun w _ v => ((w.next h.DS18X20_OK).1, (w.next h.DS18X20_OK).2, v)
  DS18X20_get_power_status := fun w _ => (w, h.DS18X20_POWER_PARASITE)
  DS18X20_read_scratchpad := fun w _ sp _ => (w, sp)
  DS18X20_write_scratchpad := fun w _ _ _ _ => w
  DS18X20_scratchpad_to_eeprom := fun w _ _ => w
  DS18X20_eeprom_to_scratchpad := fun w _ => w
  delay_ms := fun w _ => w

/-- A table of `MAXSENSORS` rows of `OW_ROMCODE_SIZE` zero bytes. -/
def zeroTable : List (List Nat) := List.replicate MAXSENSORS (List.replicate OW_ROMCODE_SIZE 0)

/-- A start state of `main` for a scripted world. -/
def scriptState (w : Script) (tbl : List (List Nat)) (n : Nat) : MainState Script where
  world := w
  gSensorIDs := tbl
  nSensors := n
  decicelsius := 0
  temp_eminus4 := 0
  error := 0
  id := List.replicate OW_ROMCODE_SIZE 0
  sp := List.replicate DS18X20_SP_SIZE 0

/-! ## Reading a trace -/

/-- The answers `(diff, id)` that the `DS18X20_find_sensor` calls of a trace
left behind, in call order. -/
def find_answers (tr : List Ev) : List (Nat × List Nat) :=
  tr.filterMap fun ev =>
    match ev with
    | Ev.find_sensor _ dout c => some (dout, c)
    | _ => none

/-- The rows of `gSensorIDs` that a trace writes, in the order of the writes. -/
def stored_rows (tr : List Ev) : List Nat :=
  tr.filterMap fun ev =>
    match ev with
    | Ev.store_id j => some j
    | _ => none

/-- An answer of `DS18X20_find_sensor` that makes `search_sensors` break:
`diff` is `OW_PRESENCE_ERR` or `OW_DATA_ERR`. -/
def is_err (h : Header) (a : Nat × List Nat) : Bool :=
  decide (a.1 = h.OW_PRESENCE_ERR) || decide (a.1 = h.OW_DATA_ERR)

/-- The state `(world, diff, id)` after `k` successive calls of
`DS18X20_find_sensor`, each call receiving the `diff` and `id` the previous one
left, as in the loop of `search_sensors`. -/
def find_chain {W : Type} (d : Driver W) : Nat → W × Nat × List Nat → W × Nat × List Nat
  | 0, x => x
  | k + 1, x => find_chain d k (d.DS18X20_find_sensor x.1 x.2.1 x.2.2)

/-- The shape the C type `uint8_t gSensorIDs[MAXSENSORS][OW_ROMCODE_SIZE]`
gives the table. -/
def table_ok (tbl : List (List Nat)) : Prop :=
  tbl.length = MAXSENSORS ∧ ∀ r ∈ tbl, r.length = OW_ROMCODE_SIZE

instance (tbl : List (List Nat)) : Decidable (table_ok tbl) := by
  unfold table_ok; infer_instance

/-- The `diff` codes of the header are told apart the way the loop of
`search_sensors` relies on: the start value is not the end marker, and the end
marker and the two error codes differ from each other. -/
def Header.diff_codes_ok (h : Header) : Prop :=
  h.OW_SEARCH_FIRST ≠ h.OW_LAST_DEVICE ∧ h.OW_LAST_DEVICE ≠ h.OW_PRESENCE_ERR ∧
  h.OW_LAST_DEVICE ≠ h.OW_DATA_ERR ∧ h.OW_PRESENCE_ERR ≠ h.OW_DATA_ERR

instance (h : Header) : Decidable h.diff_codes_ok := by
  unfold Header.diff_codes_ok; infer_instance

/-- A ROM code whose last byte is the CRC-8 of its first seven bytes. -/
def codeA : List Nat := [0x02, 0x1C, 0xB8, 0x01, 0x00, 0x00, 0x00, 0xA2]

/-- A ROM code whose last byte is not the CRC-8 of its first seven bytes. -/
def codeB : List Nat := [0x28, 0x01, 0x02, 0x03, 0x04, 0x05, 0x06, 0x07]

/-- The content of the local buffer `id` used when evaluating the program. -/
def zeroId : List Nat := List.replicate OW_ROMCODE_SIZE 0

/-- A scan that finds `codeA` and then gets `OW_DATA_ERR` (0xFE) on its second
pass. -/
def scanDataErr : SearchResult Script :=
  search_sensors avrHeader (scriptDriver avrHeader)
    { finds := [(5, codeA), (0xFE, codeB)], results := [] } zeroTable zeroId

/-- A scan that finds `codeA` as the only device, without any error. -/
def scanOne : SearchResult Script :=
  search_sensors avrHeader (scriptDriver avrHeader)
    { finds := [(0, codeA)], results := [] } zeroTable zeroId

/-- A scan in which `DS18X20_find_sensor` delivers `codeB`, whose last byte is
not the CRC-8 of the first seven. -/
def scanBadCrc : SearchResult Script :=
  search_sensors avrHeader (scriptDriver avrHeader)
    { finds := [(0, codeB)], results := [] } zeroTable zeroId

/-- A scan of a bus with the two devices `codeA` and `codeB`. -/
def scanTwo : SearchResult Script :=
  search_sensors avrHeader (scriptDriver avrHeader)
    { finds := [(5, codeA), (0, codeB)], results := [] } zeroTable zeroId

/-- A call of `DS18X20_start_meas`. -/
def is_start : Ev → Bool
  | Ev.start_meas _ _ => true
  | _ => false

/-- A temperature read: `DS18X20_read_decicelsius`,
`DS18X20_read_decicelsius_single` or `DS18X20_read_maxres`. -/
def is_read : Ev → Bool
  | Ev.read_decicelsius _ _ => true
  | Ev.read_decicelsius_single _ _ => true
  | Ev.read_maxres _ _ => true
  | _ => false

/-- A call of `DS18X20_start_meas` or a temperature read that returned
something other than `DS18X20_OK`. -/
def is_fault (h : Header) : Ev → Bool
  | Ev.start_meas _ r => decide (r ≠ h.DS18X20_OK)
  | Ev.read_decicelsius _ r => decide (r ≠ h.DS18X20_OK)
  | Ev.read_decicelsius_single _ r => decide (r ≠ h.DS18X20_OK)
  | Ev.read_maxres _ r => decide (r ≠ h.DS18X20_OK)
  | _ => false

/-- Number of failed measuring calls in a trace. -/
def faults (h : Header) (tr : List Ev) : Nat := tr.countP (is_fault h)

/-- The driver calls of the measuring kind in a trace: `DS18X20_start_meas`,
`_delay_ms` and the temperature reads (the console output is dropped). -/
def meas_calls (tr : List Ev) : List Ev :=
  tr.filter fun ev =>
    match ev with
    | Ev.delay_ms _ => true
    | e => is_start e || is_read e

/-- The measuring calls of one sensor's turn in the sensor-by-sensor part
without retry: one targeted start for sensor `i`, and the delay and one read
only when the start returned `DS18X20_OK`; `r` and `q` are the results of the
start and of the read. -/
def turn_calls (h : Header) (i r q : Nat) : List Ev :=
  if r = h.DS18X20_OK then
    [Ev.start_meas (some (i - 1)) r, Ev.delay_ms h.DS18B20_TCONV_12BIT,
     Ev.read_decicelsius (i - 1) q]
  else [Ev.start_meas (some (i - 1)) r]

/-- What one sensor's turn adds to the error counter: 1 for a failed start or
a failed read. -/
def turn_faults (h : Header) (r q : Nat) : Nat :=
  if r = h.DS18X20_OK then (if q = h.DS18X20_OK then 0 else 1) else 1

/-- The turns of sensors `i, i-1, ..., 1` with the results `rq`. -/
def turns (h : Header) : Nat → List (Nat × Nat) → List Ev
  | i + 1, rq :: rest => turn_calls h (i + 1) rq.1 rq.2 ++ turns h i rest
  | _, _ => []

/-- The faults of a list of turns. -/
def turns_faults (h : Header) : List (Nat × Nat) → Nat
  | [] => 0
  | rq :: rest => turn_faults h rq.1 rq.2 + turns_faults h rest

/-! ## An ideal device for the EEPROM test -/

/-- Modelled from the spec: the registers of one DS18x20 as far as section 4.6
speaks of them (the driver functions `DS18X20_read_scratchpad`,
`DS18X20_write_scratchpad`, `DS18X20_scratchpad_to_eeprom` and
`DS18X20_eeprom_to_scratchpad` are not part of the program file): the volatile
scratchpad bytes and the non-volatile copies of TH, TL and configuration. -/
structure Device where
  temp_lsb : Nat
  temp_msb : Nat
  th : Nat
  tl : Nat
  conf : Nat
  res5 : Nat
  res6 : Nat
  res7 : Nat
  ee_th : Nat
  ee_tl : Nat
  ee_conf : Nat
deriving DecidableEq, Repr

/-- Modelled from the spec: the scratchpad as `readScratchpad` returns it, in
the byte layout of section 3 with the CRC-8 of the data bytes last. -/
def Device.scratchpad (v : Device) : List Nat :=
  [v.temp_lsb, v.temp_msb, v.th, v.tl, v.conf, v.res5, v.res6, v.res7,
   crc8 [v.temp_lsb, v.temp_msb, v.th, v.tl, v.conf, v.res5, v.res6, v.res7]]

/-- Modelled from the spec: a bus with one ideal device. `writeScratchpad` sets
TH, TL and configuration in the volatile scratchpad only,
`copyScratchpadToEeprom` copies them to non-volatile storage,
`recallEepromToScratchpad` restores them, `readScratchpad` fills the first
`n` bytes of the buffer.  The measuring functions, which the EEPROM test does
not call, always succeed. -/
def idealDriver (h : Header) : Driver Device where
  ow_reset := fun v => v
  DS18X20_find_sensor := fun v _ idb => (v, h.OW_LAST_DEVICE, idb)
  DS18X20_start_meas := fun v _ _ => (v, h.DS18X20_OK)
  DS18X20_read_decicelsius := fun v _ t => (v, h.DS18X20_OK, t)
  DS18X20_read_decicelsius_single := fun v _ t => (v, h.DS18X20_OK, t)
  DS18X20_read_maxres := fun v _ t => (v, h.DS18X20_OK, t)
  DS18X20_get_power_status := fun v _ => (v, h.DS18X20_POWER_PARASITE)
  DS18X20_read_scratchpad := fun v _ sp n => (v, v.scratchpad.take n ++ sp.drop n)
  DS18X20_write_scratchpad := fun v _ th tl conf => { v with th := th, tl := tl, conf := conf }
  DS18X20_scratchpad_to_eeprom := fun v _ _ =>
    { v with ee_th := v.th, ee_tl := v.tl, ee_conf := v.conf }
  DS18X20_eeprom_to_scratchpad := fun v _ =>
    { v with th := v.ee_th, tl := v.ee_tl, conf := v.ee_conf }
  delay_ms := fun v _ => v

/-- The EEPROM operations of a trace (writes, copies, recalls), in order. -/
def eeprom_ops (tr : List Ev) : List Ev :=
  tr.filter fun ev =>
    match ev with
    | Ev.write_scratchpad _ _ _ _ => true
    | Ev.scratchpad_to_eeprom _ _ => true
    | Ev.eeprom_to_scratchpad _ => true
    | _ => false

/-- The `(TH, TL)` pairs of the scratchpad reads of a trace, in order. -/
def th_tl_reads (tr : List Ev) : List (Nat × Nat) :=
  tr.filterMap fun ev =>
    match ev with
    | Ev.read_scratchpad _ sp => some (sp.getD DS18X20_TH_REG 0, sp.getD DS18X20_TL_REG 0)
    | _ => none

/-- A cycle state for a scripted world in which sensor 2 starts but fails to
read and sensor 1 fails to start. -/
def twoFaultState : MainState Script :=
  scriptState { finds := [], results := [0, 1, 1] } [codeA, codeB, zeroId, zeroId, zeroId] 2

/-- What every measuring part of a cycle guarantees, from state `s` to result
`r`: the error counter stays a byte and has grown (modulo 256) by the number of
failed measuring calls, of which there are at most `bound`; the registry is
untouched and `search_sensors` has not been called. -/
def part_ok {W : Type} (h : Header) (bound : Nat) (s : MainState W)
    (r : MainState W × List Ev) : Prop :=
  (s.error < 256 → r.1.error < 256) ∧
  r.1.error % 256 = (s.error + faults h r.2) % 256 ∧
  faults h r.2 ≤ bound ∧
  r.1.gSensorIDs = s.gSensorIDs ∧ r.1.nSensors = s.nSensors ∧
  Ev.call_search_sensors ∉ r.2

/-- A build with the three optional parts and a cycle, for one sensor, in
which every tested call succeeds and only the `DS18X20_start_meas` of the
`DS18X20_VERBOSE` block returns 1 instead of `DS18X20_OK`. -/
def verboseFaultCycle : MainState Script × List Ev :=
  main_loop_body avrHeader (scriptDriver avrHeader)
    (scriptState { finds := [], results := [0, 0, 0, 0, 0, 1] }
      [codeA, zeroId, zeroId, zeroId, zeroId] 1)

/-- A state with one sensor in which the first targeted start will fail. -/
def oneFaultState : MainState Script :=
  scriptState { finds := [(0, codeA)], results := [1] }
    [codeA, zeroId, zeroId, zeroId, zeroId] 1

/-- A state with no sensor in the registry, all calls about to succeed, and a
bus on which a scan finds `codeA`. -/
def noSensorState : MainState Script :=
  scriptState { finds := [(0, codeA)], results := [] } zeroTable 0

/-- A state with two sensors and all calls about to succeed. -/
def twoSensorState : MainState Script :=
  scriptState { finds := [], results := [] } [codeA, codeB, zeroId, zeroId, zeroId] 2

/-! ## Conversion progress along a trace -/

/-- How far the last conversion has got at a point of the trace: no
conversion started, `DS18X20_start_meas` just called, or a start directly
followed by the full delay `DS18B20_TCONV_12BIT` with no new start since. -/
inductive Conv where
  | idle
  | started
  | ready
deriving DecidableEq, Repr

/-- One operation seen from conversion state `c`; `none` when the operation is
a temperature read issued before a conversion delay has elapsed. -/
def conv_step (h : Header) (c : Conv) (ev : Ev) : Option Conv :=
  if is_start ev then some Conv.started
  else if is_read ev then (if c = Conv.ready then some Conv.ready else none)
  else if c = Conv.started then
    (if ev = Ev.delay_ms h.DS18B20_TCONV_12BIT then some Conv.ready else some Conv.idle)
  else some c

/-- A whole trace seen from conversion state `c`. -/
def conv_run (h : Header) : Conv → List Ev → Option Conv
  | c, [] => some c
  | c, ev :: tr =>
    match conv_step h c ev with
    | none => none
    | some c1 => conv_run h c1 tr

/-- A piece of trace in which no read comes too early, whatever the conversion
state it is entered with. -/
def conv_safe (h : Header) (tr : List Ev) : Prop :=
  ∀ c, ∃ c1, conv_run h c tr = some c1

/-- A build without the optional parts. -/
def plainHeader : Header :=
  { avrHeader with
    OW_ONE_BUS := true
    DS18X20_EEPROMSUPPORT := false
    DS18X20_VERBOSE := false
    DS18X20_MAX_RESOLUTION := false }

/-- The trace of `main` in the plain build on a bus with the single device
`codeA`, up to the end of the first pass of the loop. -/
def oneSensorRun : List Ev :=
  (main plainHeader (scriptDriver plainHeader) 1
    (scriptState { finds := [(0, codeA)], results := [] } zeroTable 0)).2

/-! ## Properties of `search_sensors` -/

theorem find_answers_cons_find (a b : Nat) (c : List Nat) (tr : List Ev) :
    find_answers (Ev.find_sensor a b c :: tr) = (b, c) :: find_answers tr := rfl

theorem find_answers_cons_store (j : Nat) (tr : List Ev) :
    find_answers (Ev.store_id j :: tr) = find_answers tr := rfl

theorem find_answers_append (a b : List Ev) :
    find_answers (a ++ b) = find_answers a ++ find_answers b := by
  simp [find_answers]

theorem copy_id_length (c : List Nat) : ∀ (n i : Nat) (r : List Nat),
    (copy_id c n i r).length = r.length := by
  intro n
  induction n with
  | zero => intro i r; rfl
  | succ n ih => intro i r; simp [copy_id, ih]

theorem copy_id_getElem? (c : List Nat) : ∀ (n i : Nat) (r : List Nat) (j : Nat),
    (copy_id c n i r)[j]? =
      if i ≤ j ∧ j < i + n ∧ j < r.length then some (c.getD j 0) else r[j]? := by
  intro n
  induction n with
  | zero =>
    intro i r j
    have h0 : ¬ (i ≤ j ∧ j < i + 0 ∧ j < r.length) := by omega
    simp only [copy_id, h0, if_false]
  | succ n ih =>
    intro i r j
    simp only [copy_id, ih, List.length_set]
    by_cases hj : j = i
    · subst hj
      by_cases hl : j < r.length
      · simp [hl]
      · have h1 : r.length ≤ j := by omega
        have h2 : (r.set j (c.getD j 0)).length ≤ j := by simpa using h1
        rw [List.getElem?_eq_none h1, List.getElem?_eq_none h2]
        simp [hl]
    · have hne : i ≠ j := fun e => hj e.symm
      rw [List.getElem?_set_ne hne]
      by_cases h1 : i + 1 ≤ j ∧ j < i + 1 + n ∧ j < r.length
      · have h2 : i ≤ j ∧ j < i + (n + 1) ∧ j < r.length := by omega
        simp [h1, h2]
      · have h2 : ¬ (i ≤ j ∧ j < i + (n + 1) ∧ j < r.length) := by omega
        simp [h1, h2]

/-- The copy loop over a whole row replaces the row by the code. -/
theorem copy_id_full (c r : List Nat) (hc : c.length = OW_ROMCODE_SIZE)
    (hr : r.length = OW_ROMCODE_SIZE) : copy_id c OW_ROMCODE_SIZE 0 r = c := by
  apply List.ext_getElem?
  intro j
  rw [copy_id_getElem?]
  by_cases hj : j < OW_ROMCODE_SIZE
  · have : j < c.length := by omega
    simp [hj, hr, List.getD_eq_getElem?_getD, List.getElem?_eq_getElem this]
  · have h1 : r.length ≤ j := by omega
    have h2 : c.length ≤ j := by omega
    simp [hj, hr, List.getElem?_eq_none h1, List.getElem?_eq_none h2]

theorem row_set_self (tbl : List (List Nat)) (n : Nat) (v : List Nat) :
    row (tbl.set n v) n = if n < tbl.length then v else [] := by
  unfold row
  by_cases hn : n < tbl.length
  · simp [hn, List.getD_eq_getElem?_getD]
  · have h1 : (tbl.set n v).length ≤ n := by simp; omega
    simp [hn, List.getD_eq_getElem?_getD, List.getElem?_eq_none h1]

theorem row_set_ne (tbl : List (List Nat)) (n j : Nat) (v : List Nat) (hne : n ≠ j) :
    row (tbl.set n v) j = row tbl j := by
  unfold row
  simp [List.getD_eq_getElem?_getD, List.getElem?_set_ne hne]

theorem row_out_of_range (tbl : List (List Nat)) (n : Nat) (hn : tbl.length ≤ n) :
    row tbl n = [] := by
  unfold row
  simp [List.getD_eq_getElem?_getD, List.getElem?_eq_none hn]

theorem copy_id_nil (c : List Nat) : ∀ (n i : Nat), copy_id c n i [] = [] := by
  intro n
  induction n with
  | zero => intro i; rfl
  | succ n ih => intro i; simp [copy_id, ih]

/-- The row that one pass of the loop stores at index `n`. -/
theorem row_store (tbl : List (List Nat)) (n : Nat) (c : List Nat) :
    row (tbl.set n (copy_id c OW_ROMCODE_SIZE 0 (row tbl n))) n
      = copy_id c OW_ROMCODE_SIZE 0 (row tbl n) := by
  rw [row_set_self]
  by_cases hn : n < tbl.length
  · simp [hn]
  · have h1 : tbl.length ≤ n := by omega
    simp [hn, row_out_of_range tbl n h1, copy_id_nil]

/-- Invariant of the `while` loop of `search_sensors`, for any amount of
unrolling: the count stays within `MAXSENSORS`, it grows by the number of
answers without error, rows outside the stored range keep their content, and
row `nSensors + j` holds the code of the `j`-th answer. -/
theorem search_loop_fuel_inv {W : Type} (h : Header) (d : Driver W) :
    ∀ (fuel : Nat) (s : SearchState W), s.nSensors ≤ MAXSENSORS →
      s.nSensors ≤ (search_loop_fuel h d fuel s).1.nSensors ∧
      (search_loop_fuel h d fuel s).1.nSensors ≤ MAXSENSORS ∧
      s.nSensors + (find_answers (search_loop_fuel h d fuel s).2).length ≤ MAXSENSORS ∧
      (search_loop_fuel h d fuel s).1.nSensors = s.nSensors +
        ((find_answers (search_loop_fuel h d fuel s).2).filter (fun a => !is_err h a)).length ∧
      (search_loop_fuel h d fuel s).1.gSensorIDs.length = s.gSensorIDs.length ∧
      (∀ j, j < s.nSensors ∨ (search_loop_fuel h d fuel s).1.nSensors ≤ j →
        row (search_loop_fuel h d fuel s).1.gSensorIDs j = row s.gSensorIDs j) ∧
      (∀ j, s.nSensors + j < (search_loop_fuel h d fuel s).1.nSensors →
        ∃ a, (find_answers (search_loop_fuel h d fuel s).2)[j]? = some a ∧
          row (search_loop_fuel h d fuel s).1.gSensorIDs (s.nSensors + j) =
            copy_id a.2 OW_ROMCODE_SIZE 0 (row s.gSensorIDs (s.nSensors + j))) := by
  intro fuel
  induction fuel with
  | zero =>
    intro s hs
    simp [search_loop_fuel, find_answers, hs]
  | succ fuel ih =>
    intro s hs
    simp only [search_loop_fuel]
    split_ifs with hc hp hd
    · simp [find_answers, is_err, hp, hs]
      simp only [MAXSENSORS] at hc ⊢
      omega
    · simp [find_answers, is_err, hd, hs]
      simp only [MAXSENSORS] at hc ⊢
      omega
    · have hlt : s.nSensors < MAXSENSORS := hc.2
      have hmod : (s.nSensors + 1) % 256 = s.nSensors + 1 := by
        simp only [MAXSENSORS] at hlt
        omega
      obtain ⟨i1, i2, i3, i4, i5, i6, i7⟩ := ih
        { world := (d.DS18X20_find_sensor s.world s.diff s.id).1
          gSensorIDs := s.gSensorIDs.set s.nSensors
            (copy_id (d.DS18X20_find_sensor s.world s.diff s.id).2.2 OW_ROMCODE_SIZE 0
              (row s.gSensorIDs s.nSensors))
          id := (d.DS18X20_find_sensor s.world s.diff s.id).2.2
          diff := (d.DS18X20_find_sensor s.world s.diff s.id).2.1
          nSensors := (s.nSensors + 1) % 256 }
        (by simp only [hmod]; omega)
      simp only [hmod] at i1 i2 i3 i4 i5 i6 i7
      simp only [hmod, find_answers_cons_find, find_answers_cons_store, List.length_cons,
        List.filter_cons]
      have hne : is_err h ((d.DS18X20_find_sensor s.world s.diff s.id).2.1,
          (d.DS18X20_find_sensor s.world s.diff s.id).2.2) = false := by
        simp [is_err, hp, hd]
      simp only [hne, Bool.not_false, if_true, List.length_cons]
      refine ⟨by omega, i2, by omega, by omega, ?_, ?_, ?_⟩
      · simpa using i5
      · intro j hj
        rw [i6 j (by omega)]
        apply row_set_ne
        omega
      · intro j hj
        cases j with
        | zero =>
          refine ⟨_, List.getElem?_cons_zero, ?_⟩
          simp only [Nat.add_zero]
          rw [i6 s.nSensors (by omega)]
          exact row_store _ _ _
        | succ j =>
          obtain ⟨a, ha1, ha2⟩ := i7 j (by omega)
          refine ⟨a, by simpa using ha1, ?_⟩
          have e : s.nSensors + (j + 1) = s.nSensors + 1 + j := by omega
          rw [e, ha2, row_set_ne]
          omega
    · simp [find_answers, hs]

/-- The fuel `MAXSENSORS - nSensors` never runs out before the loop test
fails: `search_loop` satisfies the equation of the `while` loop. -/
theorem search_loop_unfold {W : Type} (h : Header) (d : Driver W) (s : SearchState W) :
    search_loop h d s =
      if s.diff ≠ h.OW_LAST_DEVICE ∧ s.nSensors < MAXSENSORS then
        if (d.DS18X20_find_sensor s.world s.diff s.id).2.1 = h.OW_PRESENCE_ERR then
          ({ s with world := (d.DS18X20_find_sensor s.world s.diff s.id).1,
                    diff := (d.DS18X20_find_sensor s.world s.diff s.id).2.1,
                    id := (d.DS18X20_find_sensor s.world s.diff s.id).2.2 },
           [Ev.find_sensor s.diff (d.DS18X20_find_sensor s.world s.diff s.id).2.1
              (d.DS18X20_find_sensor s.world s.diff s.id).2.2,
            Ev.printf "No Sensor found\r\n"])
        else if (d.DS18X20_find_sensor s.world s.diff s.id).2.1 = h.OW_DATA_ERR then
          ({ s with world := (d.DS18X20_find_sensor s.world s.diff s.id).1,
                    diff := (d.DS18X20_find_sensor s.world s.diff s.id).2.1,
                    id := (d.DS18X20_find_sensor s.world s.diff s.id).2.2 },
           [Ev.find_sensor s.diff (d.DS18X20_find_sensor s.world s.diff s.id).2.1
              (d.DS18X20_find_sensor s.world s.diff s.id).2.2,
            Ev.printf "Bus Error\r\n"])
        else
          ((search_loop h d
              { world := (d.DS18X20_find_sensor s.world s.diff s.id).1
                gSensorIDs := s.gSensorIDs.set s.nSensors
                  (copy_id (d.DS18X20_find_sensor s.world s.diff s.id).2.2 OW_ROMCODE_SIZE 0
                    (row s.gSensorIDs s.nSensors))
                id := (d.DS18X20_find_sensor s.world s.diff s.id).2.2
                diff := (d.DS18X20_find_sensor s.world s.diff s.id).2.1
                nSensors := (s.nSensors + 1) % 256 }).1,
           Ev.find_sensor s.diff (d.DS18X20_find_sensor s.world s.diff s.id).2.1
              (d.DS18X20_find_sensor s.world s.diff s.id).2.2 :: Ev.store_id s.nSensors ::
            (search_loop h d
              { world := (d.DS18X20_find_sensor s.world s.diff s.id).1
                gSensorIDs := s.gSensorIDs.set s.nSensors
                  (copy_id (d.DS18X20_find_sensor s.world s.diff s.id).2.2 OW_ROMCODE_SIZE 0
                    (row s.gSensorIDs s.nSensors))
                id := (d.DS18X20_find_sensor s.world s.diff s.id).2.2
                diff := (d.DS18X20_find_sensor s.world s.diff s.id).2.1
                nSensors := (s.nSensors + 1) % 256 }).2)
      else (s, []) := by
  unfold search_loop
  by_cases hlt : s.nSensors < MAXSENSORS
  · obtain ⟨k, hk⟩ : ∃ k, MAXSENSORS - s.nSensors = k + 1 := ⟨MAXSENSORS - s.nSensors - 1, by omega⟩
    have hmod : (s.nSensors + 1) % 256 = s.nSensors + 1 := by
      simp only [MAXSENSORS] at hlt
      omega
    have hk2 : MAXSENSORS - (s.nSensors + 1) = k := by omega
    rw [hk]
    simp only [search_loop_fuel, hmod, hk2]
  · have h0 : MAXSENSORS - s.nSensors = 0 := by omega
    rw [h0]
    simp [search_loop_fuel, hlt]

/-- The rows the loop writes are the rows from the count it starts with up to
the count it ends with, one write each, in this order. -/
theorem search_loop_fuel_stores {W : Type} (h : Header) (d : Driver W) :
    ∀ (fuel : Nat) (s : SearchState W), s.nSensors ≤ MAXSENSORS →
      stored_rows (search_loop_fuel h d fuel s).2 =
        List.range' s.nSensors ((search_loop_fuel h d fuel s).1.nSensors - s.nSensors) := by
  intro fuel
  induction fuel with
  | zero =>
    intro s _
    simp [search_loop_fuel, stored_rows]
  | succ fuel ih =>
    intro s hs
    simp only [search_loop_fuel]
    split_ifs with hc hp hd
    · simp [stored_rows]
    · simp [stored_rows]
    · have hlt : s.nSensors < MAXSENSORS := hc.2
      have hmod : (s.nSensors + 1) % 256 = s.nSensors + 1 := by
        simp only [MAXSENSORS] at hlt
        omega
      simp only [hmod]
      have hge := (search_loop_fuel_inv h d fuel
        { world := (d.DS18X20_find_sensor s.world s.diff s.id).1
          gSensorIDs := s.gSensorIDs.set s.nSensors
            (copy_id (d.DS18X20_find_sensor s.world s.diff s.id).2.2 OW_ROMCODE_SIZE 0
              (row s.gSensorIDs s.nSensors))
          id := (d.DS18X20_find_sensor s.world s.diff s.id).2.2
          diff := (d.DS18X20_find_sensor s.world s.diff s.id).2.1
          nSensors := s.nSensors + 1 } (by show s.nSensors + 1 ≤ MAXSENSORS; omega)).1
      have hrec := ih
        { world := (d.DS18X20_find_sensor s.world s.diff s.id).1
          gSensorIDs := s.gSensorIDs.set s.nSensors
            (copy_id (d.DS18X20_find_sensor s.world s.diff s.id).2.2 OW_ROMCODE_SIZE 0
              (row s.gSensorIDs s.nSensors))
          id := (d.DS18X20_find_sensor s.world s.diff s.id).2.2
          diff := (d.DS18X20_find_sensor s.world s.diff s.id).2.1
          nSensors := s.nSensors + 1 } (by show s.nSensors + 1 ≤ MAXSENSORS; omega)
      simp only [] at hge hrec
      obtain ⟨m, hm⟩ : ∃ m, (search_loop_fuel h d fuel
        { world := (d.DS18X20_find_sensor s.world s.diff s.id).1
          gSensorIDs := s.gSensorIDs.set s.nSensors
            (copy_id (d.DS18X20_find_sensor s.world s.diff s.id).2.2 OW_ROMCODE_SIZE 0
              (row s.gSensorIDs s.nSensors))
          id := (d.DS18X20_find_sensor s.world s.diff s.id).2.2
          diff := (d.DS18X20_find_sensor s.world s.diff s.id).2.1
          nSensors := s.nSensors + 1 }).1.nSensors = s.nSensors + 1 + m :=
        ⟨_, (Nat.add_sub_cancel' hge).symm⟩
      rw [hm] at hrec ⊢
      have e1 : s.nSensors + 1 + m - (s.nSensors + 1) = m := by omega
      have e2 : s.nSensors + 1 + m - s.nSensors = m + 1 := by omega
      rw [e1] at hrec
      rw [e2, List.range'_succ]
      show s.nSensors :: stored_rows _ = _
      rw [hrec]
    · simp [stored_rows]

/-- C4: whatever `DS18X20_find_sensor` does, `search_sensors` calls it at most
`MAXSENSORS` times and returns a count of at most `MAXSENSORS` that is the
number of answers without error; the rows it writes are the rows
`0, 1, ..., count - 1`, one write each, all below `MAXSENSORS`; the table keeps
its shape, rows from the returned count on are untouched, and row `j` below
the count holds the code of the `j`-th call. -/
theorem search_sensors_bounded {W : Type} (h : Header) (d : Driver W) (w : W)
    (tbl : List (List Nat)) (id0 : List Nat) :
    (find_answers (search_sensors h d w tbl id0).trace).length ≤ MAXSENSORS ∧
    (search_sensors h d w tbl id0).ret ≤ MAXSENSORS ∧
    (search_sensors h d w tbl id0).ret =
      ((find_answers (search_sensors h d w tbl id0).trace).filter
        (fun a => !is_err h a)).length ∧
    stored_rows (search_sensors h d w tbl id0).trace =
      List.range (search_sensors h d w tbl id0).ret ∧
    (∀ j ∈ stored_rows (search_sensors h d w tbl id0).trace, j < MAXSENSORS) ∧
    (search_sensors h d w tbl id0).gSensorIDs.length = tbl.length ∧
    (∀ j, (search_sensors h d w tbl id0).ret ≤ j →
      row (search_sensors h d w tbl id0).gSensorIDs j = row tbl j) ∧
    (∀ j, j < (search_sensors h d w tbl id0).ret →
      ∃ a, (find_answers (search_sensors h d w tbl id0).trace)[j]? = some a ∧
        row (search_sensors h d w tbl id0).gSensorIDs j =
          copy_id a.2 OW_ROMCODE_SIZE 0 (row tbl j)) := by
  obtain ⟨_, i2, i3, i4, i5, i6, i7⟩ := search_loop_fuel_inv h d (MAXSENSORS - 0)
    { world := d.ow_reset w, gSensorIDs := tbl, id := id0, diff := h.OW_SEARCH_FIRST,
      nSensors := 0 } (Nat.zero_le _)
  have hst := search_loop_fuel_stores h d (MAXSENSORS - 0)
    { world := d.ow_reset w, gSensorIDs := tbl, id := id0, diff := h.OW_SEARCH_FIRST,
      nSensors := 0 } (Nat.zero_le _)
  simp only [Nat.zero_add] at i3 i4 i7
  simp only [Nat.sub_zero] at hst
  have e : find_answers (search_sensors h d w tbl id0).trace =
      find_answers (search_loop_fuel h d (MAXSENSORS - 0)
        { world := d.ow_reset w, gSensorIDs := tbl, id := id0, diff := h.OW_SEARCH_FIRST,
          nSensors := 0 }).2 := by
    simp [search_sensors, search_loop, find_answers]
  have e2 : stored_rows (search_sensors h d w tbl id0).trace =
      List.range (search_sensors h d w tbl id0).ret := by
    rw [List.range_eq_range']
    simp only [search_sensors, search_loop, Nat.sub_zero]
    rw [← hst]
    simp [stored_rows]
  rw [e]
  refine ⟨i3, i2, i4, e2, ?_, i5, fun j hj => i6 j (Or.inr hj), i7⟩
  intro j hj
  rw [e2, List.mem_range] at hj
  exact Nat.lt_of_lt_of_le hj i2

theorem row_length_of_table_ok (tbl : List (List Nat)) (ht : table_ok tbl) (j : Nat)
    (hj : j < MAXSENSORS) : (row tbl j).length = OW_ROMCODE_SIZE := by
  have hl : j < tbl.length := by rw [ht.1]; exact hj
  have e : row tbl j = tbl[j] := by
    unfold row
    simp [List.getD_eq_getElem?_getD, List.getElem?_eq_getElem hl]
  rw [e]
  exact ht.2 _ (List.getElem_mem hl)

theorem take_eq_of_rows (a cs : List (List Nat)) (hl : cs.length ≤ a.length)
    (hr : ∀ j, j < cs.length → some (row a j) = cs[j]?) : a.take cs.length = cs := by
  apply List.ext_getElem
  · simp [hl]
  · intro j h1 h2
    have hj : j < a.length := by omega
    have := hr j h2
    unfold row at this
    simp only [List.getD_eq_getElem?_getD, List.getElem?_eq_getElem hj,
      List.getElem?_eq_getElem h2, Option.getD_some, Option.some.injEq] at this
    simp [this]

/-- An answer with an error code ends the loop: it is the last call, the count
is the number of calls before it, and after a bus-data error the last thing
done is the message "Bus Error". -/
theorem search_loop_fuel_err {W : Type} (h : Header) (d : Driver W) :
    ∀ (fuel : Nat) (s : SearchState W), s.nSensors ≤ MAXSENSORS →
      ∀ (k : Nat) (a : Nat × List Nat),
        (find_answers (search_loop_fuel h d fuel s).2)[k]? = some a → is_err h a = true →
          (find_answers (search_loop_fuel h d fuel s).2).length = k + 1 ∧
          (search_loop_fuel h d fuel s).1.nSensors = s.nSensors + k ∧
          (a.1 ≠ h.OW_PRESENCE_ERR →
            ∃ pre, (search_loop_fuel h d fuel s).2 = pre ++ [Ev.printf "Bus Error\r\n"]) := by
  intro fuel
  induction fuel with
  | zero =>
    intro s hs k a hk
    simp [search_loop_fuel, find_answers] at hk
  | succ fuel ih =>
    intro s hs k a
    simp only [search_loop_fuel]
    split_ifs with hc hp hd
    · intro hk he
      cases k with
      | zero =>
        simp [find_answers] at hk
        subst hk
        simp [find_answers, hp]
      | succ k => simp [find_answers] at hk
    · intro hk he
      cases k with
      | zero =>
        simp [find_answers] at hk
        subst hk
        simp [find_answers]
        exact fun _ => ⟨[Ev.find_sensor s.diff (d.DS18X20_find_sensor s.world s.diff s.id).2.1
          (d.DS18X20_find_sensor s.world s.diff s.id).2.2], rfl⟩
      | succ k => simp [find_answers] at hk
    · have hlt : s.nSensors < MAXSENSORS := hc.2
      have hmod : (s.nSensors + 1) % 256 = s.nSensors + 1 := by
        simp only [MAXSENSORS] at hlt
        omega
      simp only [hmod, find_answers_cons_find, find_answers_cons_store]
      intro hk he
      cases k with
      | zero =>
        simp only [List.getElem?_cons_zero, Option.some.injEq] at hk
        subst hk
        simp [is_err, hp, hd] at he
      | succ k =>
        simp only [List.getElem?_cons_succ] at hk
        obtain ⟨j1, j2, j3⟩ := ih _ (by show s.nSensors + 1 ≤ MAXSENSORS; omega) k a hk he
        have j2b : (search_loop_fuel h d fuel _).1.nSensors = s.nSensors + 1 + k := j2
        refine ⟨by simp [j1], by rw [j2b]; omega, ?_⟩
        intro hne
        obtain ⟨pre, hpre⟩ := j3 hne
        exact ⟨_ :: _ :: pre, by rw [hpre]; rfl⟩
    · intro hk
      simp [find_answers] at hk

/-- When the loop is entered with `diff` at the end marker, nothing is done. -/
theorem search_loop_fuel_last {W : Type} (h : Header) (d : Driver W) (fuel : Nat)
    (s : SearchState W) (hl : s.diff = h.OW_LAST_DEVICE) :
    search_loop_fuel h d fuel s = (s, []) := by
  cases fuel with
  | zero => rfl
  | succ fuel => simp [search_loop_fuel, hl]

/-- A run of `n + 1` answers without error, the last of which (and only the
last) leaves the end marker, is consumed completely by the loop. -/
theorem search_loop_fuel_run {W : Type} (h : Header) (d : Driver W) :
    ∀ (n fuel : Nat) (s : SearchState W), n + 1 ≤ fuel → s.nSensors + (n + 1) ≤ MAXSENSORS →
      s.diff ≠ h.OW_LAST_DEVICE →
      (∀ k, k < n + 1 →
        (find_chain d (k + 1) (s.world, s.diff, s.id)).2.1 ≠ h.OW_PRESENCE_ERR ∧
        (find_chain d (k + 1) (s.world, s.diff, s.id)).2.1 ≠ h.OW_DATA_ERR ∧
        ((find_chain d (k + 1) (s.world, s.diff, s.id)).2.1 = h.OW_LAST_DEVICE ↔ k = n)) →
      (search_loop_fuel h d fuel s).1.nSensors = s.nSensors + (n + 1) ∧
      ∀ j, j < n + 1 → (find_answers (search_loop_fuel h d fuel s).2)[j]? =
        some ((find_chain d (j + 1) (s.world, s.diff, s.id)).2.1,
              (find_chain d (j + 1) (s.world, s.diff, s.id)).2.2) := by
  intro n
  induction n with
  | zero =>
    intro fuel s hf hn hd hch
    obtain ⟨fuel, rfl⟩ : ∃ f, fuel = f + 1 := ⟨fuel - 1, by omega⟩
    have h0 := hch 0 (by omega)
    simp only [find_chain, iff_true] at h0
    have hmod : (s.nSensors + 1) % 256 = s.nSensors + 1 := by
      simp only [MAXSENSORS] at hn
      omega
    have hc : s.diff ≠ h.OW_LAST_DEVICE ∧ s.nSensors < MAXSENSORS := ⟨hd, by omega⟩
    simp only [search_loop_fuel, hc, h0.1, h0.2.1, if_true, if_false, hmod, and_self,
      ne_eq, not_false_eq_true]
    rw [search_loop_fuel_last h d fuel _ h0.2.2]
    refine ⟨rfl, ?_⟩
    intro j hj
    have : j = 0 := by omega
    subst this
    simp [find_answers, find_chain]
  | succ n ih =>
    intro fuel s hf hn hd hch
    obtain ⟨fuel, rfl⟩ : ∃ f, fuel = f + 1 := ⟨fuel - 1, by omega⟩
    have h0 := hch 0 (by omega)
    simp only [find_chain] at h0
    have hnl : (d.DS18X20_find_sensor s.world s.diff s.id).2.1 ≠ h.OW_LAST_DEVICE := by
      intro e
      have := h0.2.2.1 e
      omega
    have hmod : (s.nSensors + 1) % 256 = s.nSensors + 1 := by
      simp only [MAXSENSORS] at hn
      omega
    have hc : s.diff ≠ h.OW_LAST_DEVICE ∧ s.nSensors < MAXSENSORS := ⟨hd, by omega⟩
    simp only [search_loop_fuel, hc, h0.1, h0.2.1, if_true, if_false, hmod, and_self,
      ne_eq, not_false_eq_true]
    obtain ⟨j1, j2⟩ := ih fuel
      { world := (d.DS18X20_find_sensor s.world s.diff s.id).1
        gSensorIDs := s.gSensorIDs.set s.nSensors
          (copy_id (d.DS18X20_find_sensor s.world s.diff s.id).2.2 OW_ROMCODE_SIZE 0
            (row s.gSensorIDs s.nSensors))
        id := (d.DS18X20_find_sensor s.world s.diff s.id).2.2
        diff := (d.DS18X20_find_sensor s.world s.diff s.id).2.1
        nSensors := s.nSensors + 1 }
      (by omega) (by show s.nSensors + 1 + (n + 1) ≤ MAXSENSORS; omega) hnl
      (by
        intro k hk
        have := hch (k + 1) (by omega)
        simp only [find_chain] at this ⊢
        refine ⟨this.1, this.2.1, ?_⟩
        rw [this.2.2]
        omega)
    refine ⟨by rw [j1]; show s.nSensors + 1 + (n + 1) = _; omega, ?_⟩
    intro j hj
    cases j with
    | zero => simp [find_answers, find_chain]
    | succ j =>
      rw [find_answers_cons_find, find_answers_cons_store, List.getElem?_cons_succ,
        j2 j (by omega)]
      rfl

theorem search_sensors_answers {W : Type} (h : Header) (d : Driver W) (w : W)
    (tbl : List (List Nat)) (id0 : List Nat) :
    find_answers (search_sensors h d w tbl id0).trace =
      find_answers (search_loop_fuel h d MAXSENSORS
        { world := d.ow_reset w, gSensorIDs := tbl, id := id0, diff := h.OW_SEARCH_FIRST,
          nSensors := 0 }).2 := by
  simp [search_sensors, search_loop, find_answers]

/-- C3: if the successive `DS18X20_find_sensor` calls of a scan deliver the
`N` codes `cs` (1 <= N <= MAXSENSORS), leaving `diff` at a value that is no
error and not `OW_LAST_DEVICE` after each of the first `N - 1` calls and at
`OW_LAST_DEVICE` after the `N`-th, then `search_sensors` returns `N` and rows
`0..N-1` of `gSensorIDs` are `cs` in that order, without duplicates when `cs`
has none, whatever the table held before. -/
theorem search_sensors_enumerates {W : Type} (h : Header) (d : Driver W) (w : W)
    (tbl : List (List Nat)) (id0 : List Nat) (cs : List (List Nat))
    (hh : h.diff_codes_ok) (ht : table_ok tbl)
    (hN1 : 1 ≤ cs.length) (hN5 : cs.length ≤ MAXSENSORS)
    (hlen : ∀ c ∈ cs, c.length = OW_ROMCODE_SIZE) (hnd : cs.Nodup)
    (hdeliver : ∀ k, k < cs.length →
      cs[k]? = some (find_chain d (k + 1) (d.ow_reset w, h.OW_SEARCH_FIRST, id0)).2.2 ∧
      (k + 1 < cs.length →
        (find_chain d (k + 1) (d.ow_reset w, h.OW_SEARCH_FIRST, id0)).2.1 ≠ h.OW_LAST_DEVICE ∧
        (find_chain d (k + 1) (d.ow_reset w, h.OW_SEARCH_FIRST, id0)).2.1 ≠ h.OW_PRESENCE_ERR ∧
        (find_chain d (k + 1) (d.ow_reset w, h.OW_SEARCH_FIRST, id0)).2.1 ≠ h.OW_DATA_ERR) ∧
      (k + 1 = cs.length →
        (find_chain d (k + 1) (d.ow_reset w, h.OW_SEARCH_FIRST, id0)).2.1 = h.OW_LAST_DEVICE)) :
    (search_sensors h d w tbl id0).ret = cs.length ∧
    (search_sensors h d w tbl id0).gSensorIDs.take cs.length = cs ∧
    ((search_sensors h d w tbl id0).gSensorIDs.take cs.length).Nodup := by
  obtain ⟨n, hn⟩ : ∃ n, cs.length = n + 1 := ⟨cs.length - 1, by omega⟩
  obtain ⟨hh1, hh2, hh3, _⟩ := hh
  have hrun := search_loop_fuel_run h d n MAXSENSORS
    { world := d.ow_reset w, gSensorIDs := tbl, id := id0, diff := h.OW_SEARCH_FIRST,
      nSensors := 0 } (by omega) (by show 0 + (n + 1) ≤ MAXSENSORS; omega) hh1
    (by
      intro k hk
      obtain ⟨_, d1, d2⟩ := hdeliver k (by omega)
      by_cases hkn : k = n
      · have e := d2 (by omega)
        simp only [e]
        exact ⟨hh2, hh3, by simp [hkn]⟩
      · obtain ⟨e1, e2, e3⟩ := d1 (by omega)
        exact ⟨e2, e3, by simp [e1, hkn]⟩)
  obtain ⟨r1, r2⟩ := hrun
  simp only [Nat.zero_add] at r1
  obtain ⟨_, _, _, _, i5, _, i7⟩ := search_loop_fuel_inv h d MAXSENSORS
    { world := d.ow_reset w, gSensorIDs := tbl, id := id0, diff := h.OW_SEARCH_FIRST,
      nSensors := 0 } (Nat.zero_le _)
  simp only [Nat.zero_add] at i7
  have hret : (search_sensors h d w tbl id0).ret = cs.length := by
    rw [hn]; exact r1
  have htake : (search_sensors h d w tbl id0).gSensorIDs.take cs.length = cs := by
    apply take_eq_of_rows
    · show cs.length ≤ (search_loop_fuel h d MAXSENSORS _).1.gSensorIDs.length
      rw [i5]
      show cs.length ≤ tbl.length
      rw [ht.1]; exact hN5
    · intro j hj
      obtain ⟨a, ha1, ha2⟩ := i7 j (by rw [r1]; omega)
      rw [r2 j (by omega)] at ha1
      obtain ⟨c1, _, _⟩ := hdeliver j hj
      have hcj : cs[j]? = some a.2 := by
        rw [c1]
        simp only [Option.some.injEq] at ha1
        rw [← ha1]
      have hmem : a.2 ∈ cs := by
        rw [List.getElem?_eq_getElem hj] at hcj
        simp only [Option.some.injEq] at hcj
        rw [← hcj]
        exact List.getElem_mem hj
      rw [hcj]
      show some (row (search_loop_fuel h d MAXSENSORS _).1.gSensorIDs j) = some a.2
      rw [ha2, copy_id_full _ _ (hlen _ hmem) (row_length_of_table_ok tbl ht j (by omega))]
  exact ⟨hret, htake, by rw [htake]; exact hnd⟩

theorem search_sensors_enumerates_witness :
    scanTwo.ret = 2 ∧ scanTwo.gSensorIDs.take 2 = [codeA, codeB] ∧
    (scanTwo.gSensorIDs.take 2).Nodup :=
  search_sensors_enumerates avrHeader (scriptDriver avrHeader)
    { finds := [(5, codeA), (0, codeB)], results := [] } zeroTable zeroId [codeA, codeB]
    (by decide) (by decide) (by decide) (by decide) (by decide) (by decide) (by decide)

/-- C5 as stated fails: the scan `scanDataErr` gets `OW_DATA_ERR` on its second
pass, yet `search_sensors` returns 1 with row 0 holding the device of the
first pass, exactly the count and table of the error-free scan `scanOne`. -/
theorem search_sensors_data_err_hands_partial_count :
    (avrHeader.OW_DATA_ERR, codeB) ∈ find_answers scanDataErr.trace ∧
    scanDataErr.ret = 1 ∧ row scanDataErr.gSensorIDs 0 = codeA ∧
    scanDataErr.ret = scanOne.ret ∧ scanDataErr.gSensorIDs = scanOne.gSensorIDs := by
  decide

/-- C5 (amended): when a `DS18X20_find_sensor` call of a scan leaves `diff` at
`OW_DATA_ERR`, that call is the last of the scan, the last thing
`search_sensors` does is print "Bus Error", and it returns as its sensor count
the number of calls before the failing one (the devices of the earlier
passes). -/
theorem search_sensors_data_err {W : Type} (h : Header) (d : Driver W) (w : W)
    (tbl : List (List Nat)) (id0 : List Nat) (k : Nat) (c : List Nat)
    (hne : h.OW_DATA_ERR ≠ h.OW_PRESENCE_ERR)
    (hk : (find_answers (search_sensors h d w tbl id0).trace)[k]? = some (h.OW_DATA_ERR, c)) :
    (find_answers (search_sensors h d w tbl id0).trace).length = k + 1 ∧
    (search_sensors h d w tbl id0).ret = k ∧
    ∃ pre, (search_sensors h d w tbl id0).trace = pre ++ [Ev.printf "Bus Error\r\n"] := by
  rw [search_sensors_answers] at hk ⊢
  obtain ⟨j1, j2, j3⟩ := search_loop_fuel_err h d MAXSENSORS _ (Nat.zero_le _) k _ hk
    (by simp [is_err])
  simp only [Nat.zero_add] at j2
  obtain ⟨pre, hpre⟩ := j3 hne
  refine ⟨j1, j2, ?_⟩
  exact ⟨[Ev.call_search_sensors, Ev.printf "Scanning Bus for DS18X20\r\n", Ev.ow_reset] ++ pre,
    by simp only [search_sensors, search_loop, Nat.sub_zero, hpre, List.append_assoc]⟩

theorem search_sensors_data_err_witness :
    (find_answers scanDataErr.trace).length = 1 + 1 ∧ scanDataErr.ret = 1 ∧
    ∃ pre, scanDataErr.trace = pre ++ [Ev.printf "Bus Error\r\n"] :=
  search_sensors_data_err avrHeader (scriptDriver avrHeader)
    { finds := [(5, codeA), (0xFE, codeB)], results := [] } zeroTable zeroId 1 codeB
    (by decide) (by decide)

/-- C7 as stated fails: `codeB` does not pass the CRC-8 check of the spec, and
when `DS18X20_find_sensor` delivers it `search_sensors` stores it in row 0 and
counts it. -/
theorem search_sensors_stores_bad_crc :
    ¬ rom_crc_ok codeB ∧ (0, codeB) ∈ find_answers scanBadCrc.trace ∧
    scanBadCrc.ret = 1 ∧ row scanBadCrc.gSensorIDs 0 = codeB := by
  decide

/-- C7 (amended): `search_sensors` makes no CRC check of its own; each row it
stores and counts is a code that a `DS18X20_find_sensor` call of the scan
delivered without error, so the stored rows pass the CRC-8 check whenever every
code delivered without error in the scan does. -/
theorem search_sensors_rows_crc {W : Type} (h : Header) (d : Driver W) (w : W)
    (tbl : List (List Nat)) (id0 : List Nat) (ht : table_ok tbl)
    (hcrc : ∀ a ∈ find_answers (search_sensors h d w tbl id0).trace, is_err h a = false →
      a.2.length = OW_ROMCODE_SIZE ∧ rom_crc_ok a.2) :
    ∀ j, j < (search_sensors h d w tbl id0).ret →
      (∃ a ∈ find_answers (search_sensors h d w tbl id0).trace, is_err h a = false ∧
        row (search_sensors h d w tbl id0).gSensorIDs j = a.2) ∧
      rom_crc_ok (row (search_sensors h d w tbl id0).gSensorIDs j) := by
  intro j hj
  rw [search_sensors_answers] at hcrc ⊢
  obtain ⟨_, i2, _, _, _, _, i7⟩ := search_loop_fuel_inv h d MAXSENSORS
    { world := d.ow_reset w, gSensorIDs := tbl, id := id0, diff := h.OW_SEARCH_FIRST,
      nSensors := 0 } (Nat.zero_le _)
  simp only [Nat.zero_add] at i7
  obtain ⟨a, ha1, ha2⟩ := i7 j hj
  have hmem : a ∈ find_answers (search_loop_fuel h d MAXSENSORS
      { world := d.ow_reset w, gSensorIDs := tbl, id := id0, diff := h.OW_SEARCH_FIRST,
        nSensors := 0 }).2 := List.getElem?_mem ha1
  have hok : is_err h a = false := by
    cases he : is_err h a with
    | false => rfl
    | true =>
      obtain ⟨_, j2, _⟩ := search_loop_fuel_err h d MAXSENSORS _ (Nat.zero_le _) j a ha1 he
      simp only [Nat.zero_add] at j2
      have hj2 : j < (search_loop_fuel h d MAXSENSORS
        { world := d.ow_reset w, gSensorIDs := tbl, id := id0, diff := h.OW_SEARCH_FIRST,
          nSensors := 0 }).1.nSensors := hj
      omega
  obtain ⟨hl, hc⟩ := hcrc a hmem hok
  have hj5 : j < MAXSENSORS := Nat.lt_of_lt_of_le hj i2
  have hrow : row (search_sensors h d w tbl id0).gSensorIDs j = a.2 := by
    show row (search_loop_fuel h d MAXSENSORS _).1.gSensorIDs j = a.2
    rw [ha2, copy_id_full _ _ hl (row_length_of_table_ok tbl ht j hj5)]
  exact ⟨⟨a, hmem, hok, hrow⟩, by rw [hrow]; exact hc⟩

theorem search_sensors_rows_crc_witness :
    (∃ a ∈ find_answers scanOne.trace, is_err avrHeader a = false ∧
      row scanOne.gSensorIDs 0 = a.2) ∧
    rom_crc_ok (row scanOne.gSensorIDs 0) :=
  search_sensors_rows_crc avrHeader (scriptDriver avrHeader)
    { finds := [(0, codeA)], results := [] } zeroTable zeroId (by decide) (by decide)
    0 (by decide)

/-! ## The EEPROM test -/

/-- C8: against the ideal device, `eeprom_test` started with TH/TL at
`(th0, tl0)` performs write(th0+1, tl0+1), copy to EEPROM, write(0, 0), recall
in this order, its verification read yields TH = (th0+1) mod 256 and
TL = (tl0+1) mod 256, the successive scratchpad reads show
(th0, tl0), (th0+1, tl0+1), (0, 0), (th0+1, tl0+1), (th0+1, tl0+1), and it
prints "TH and TL verified" and not "verify failed"; with th0 = 25 and
tl0 = 23 the verification read yields TH = 26 and TL = 24. -/
theorem eeprom_test_round_trip (h : Header) (v : Device) (tbl : List (List Nat))
    (sp0 : List Nat) :
    (eeprom_test h (idealDriver h) v tbl sp0).sp_verify.getD DS18X20_TH_REG 0
      = (v.th + 1) % 256 ∧
    (eeprom_test h (idealDriver h) v tbl sp0).sp_verify.getD DS18X20_TL_REG 0
      = (v.tl + 1) % 256 ∧
    eeprom_ops (eeprom_test h (idealDriver h) v tbl sp0).trace =
      [Ev.write_scratchpad 0 ((v.th + 1) % 256) ((v.tl + 1) % 256) h.DS18B20_12_BIT,
       Ev.scratchpad_to_eeprom h.DS18X20_POWER_PARASITE 0,
       Ev.write_scratchpad 0 0 0 h.DS18B20_12_BIT,
       Ev.eeprom_to_scratchpad 0] ∧
    th_tl_reads (eeprom_test h (idealDriver h) v tbl sp0).trace =
      [(v.th, v.tl), ((v.th + 1) % 256, (v.tl + 1) % 256), (0, 0),
       ((v.th + 1) % 256, (v.tl + 1) % 256), ((v.th + 1) % 256, (v.tl + 1) % 256)] ∧
    Ev.printf "TH and TL verified\r\n" ∈ (eeprom_test h (idealDriver h) v tbl sp0).trace ∧
    Ev.printf "verify failed\r\n" ∉ (eeprom_test h (idealDriver h) v tbl sp0).trace ∧
    (eeprom_test h (idealDriver h) { v with th := 25, tl := 23 } tbl sp0).sp_verify.getD
      DS18X20_TH_REG 0 = 26 ∧
    (eeprom_test h (idealDriver h) { v with th := 25, tl := 23 } tbl sp0).sp_verify.getD
      DS18X20_TL_REG 0 = 24 := by
  simp [eeprom_test, th_tl_dump, idealDriver, Device.scratchpad, DS18X20_SP_SIZE,
    DS18X20_TH_REG, DS18X20_TL_REG, eeprom_ops, th_tl_reads]

/-! ## The sensor-by-sensor part of a cycle -/

theorem meas_calls_append (a b : List Ev) : meas_calls (a ++ b) = meas_calls a ++ meas_calls b := by
  simp [meas_calls]

/-- One pass of the sensor-by-sensor loop makes the calls of one turn and
counts its fault. -/
theorem sensor_step_turn {W : Type} (h : Header) (d : Driver W) (i : Nat) (s : MainState W)
    (he : s.error < 255) :
    ∃ r q, meas_calls (sensor_step h d i s).2 = turn_calls h i r q ∧
      (sensor_step h d i s).1.error = s.error + turn_faults h r q := by
  refine ⟨(d.DS18X20_start_meas s.world h.DS18X20_POWER_PARASITE
      (some (row s.gSensorIDs (i - 1)))).2,
    (d.DS18X20_read_decicelsius (d.delay_ms (d.DS18X20_start_meas s.world
      h.DS18X20_POWER_PARASITE (some (row s.gSensorIDs (i - 1)))).1 h.DS18B20_TCONV_12BIT)
      (row s.gSensorIDs (i - 1)) s.decicelsius).2.1, ?_⟩
  have hmod : (s.error + 1) % 256 = s.error + 1 := by omega
  simp only [sensor_step]
  split_ifs with h1 h2
  · simp [meas_calls, turn_calls, turn_faults, is_start, is_read, h1, h2]
  · simp [meas_calls, turn_calls, turn_faults, is_start, is_read, h1, h2, incr_error, hmod]
  · simp [meas_calls, turn_calls, turn_faults, is_start, is_read, h1, incr_error, hmod]

theorem turn_faults_le_one (h : Header) (r q : Nat) : turn_faults h r q ≤ 1 := by
  unfold turn_faults
  split_ifs <;> omega

theorem sensor_by_sensor_turns {W : Type} (h : Header) (d : Driver W) :
    ∀ (n : Nat) (s : MainState W), s.error + n < 256 →
      ∃ rq : List (Nat × Nat), rq.length = n ∧
        meas_calls (sensor_by_sensor h d n s).2 = turns h n rq ∧
        (sensor_by_sensor h d n s).1.error = s.error + turns_faults h rq ∧
        turns_faults h rq ≤ n := by
  intro n
  induction n with
  | zero =>
    intro s _
    exact ⟨[], rfl, rfl, rfl, Nat.le_refl _⟩
  | succ n ih =>
    intro s he
    obtain ⟨r, q, h1, h2⟩ := sensor_step_turn h d (n + 1) s (by omega)
    have hle := turn_faults_le_one h r q
    obtain ⟨rq, k1, k2, k3, k4⟩ := ih (sensor_step h d (n + 1) s).1 (by omega)
    refine ⟨(r, q) :: rq, by simp [k1], ?_, ?_, ?_⟩
    · simp only [sensor_by_sensor, meas_calls_append, h1, k2, turns]
    · simp only [sensor_by_sensor, k3, h2, turns_faults]
      omega
    · simp only [turns_faults]
      omega

/-- C10: in the sensor-by-sensor part of a cycle with `n <= MAXSENSORS` sensors
(entered with the error counter at 0 or 1, as `main` does), the measuring calls
are exactly the turns of sensors `n, n-1, ..., 1` in this order: one targeted
`DS18X20_start_meas` per sensor, followed by the delay and one
`DS18X20_read_decicelsius` of that sensor if and only if the start returned
`DS18X20_OK`; every turn with a failed start or a failed read adds exactly 1 to
the error counter, and a fault does not stop the later turns. -/
theorem sensor_by_sensor_no_retry {W : Type} (h : Header) (d : Driver W) (n : Nat)
    (s : MainState W) (hn : n ≤ MAXSENSORS) (he : s.error ≤ 1) :
    ∃ rq : List (Nat × Nat), rq.length = n ∧
      meas_calls (sensor_by_sensor h d n s).2 = turns h n rq ∧
      (sensor_by_sensor h d n s).1.error = s.error + turns_faults h rq := by
  obtain ⟨rq, k1, k2, k3, _⟩ := sensor_by_sensor_turns h d n s
    (by simp only [MAXSENSORS] at hn; omega)
  exact ⟨rq, k1, k2, k3⟩

theorem sensor_by_sensor_no_retry_witness :
    ∃ rq : List (Nat × Nat), rq.length = 2 ∧
      meas_calls (sensor_by_sensor avrHeader (scriptDriver avrHeader) 2 twoFaultState).2
        = turns avrHeader 2 rq ∧
      (sensor_by_sensor avrHeader (scriptDriver avrHeader) 2 twoFaultState).1.error
        = twoFaultState.error + turns_faults avrHeader rq :=
  sensor_by_sensor_no_retry avrHeader (scriptDriver avrHeader) 2 twoFaultState
    (by decide) (by decide)

/-! ## The error counter over a cycle -/

theorem faults_append (h : Header) (a b : List Ev) :
    faults h (a ++ b) = faults h a + faults h b := by
  simp [faults]

theorem part_ok_seq {W : Type} (h : Header) (b1 b2 : Nat) (s : MainState W)
    (a c : MainState W × List Ev) (ha : part_ok h b1 s a) (hc : part_ok h b2 a.1 c) :
    part_ok h (b1 + b2) s (c.1, a.2 ++ c.2) := by
  obtain ⟨a1, a2, a3, a4, a5, a6⟩ := ha
  obtain ⟨c1, c2, c3, c4, c5, c6⟩ := hc
  refine ⟨fun hs => c1 (a1 hs), ?_, ?_, c4.trans a4, c5.trans a5, ?_⟩
  · simp only [faults_append]
    omega
  · simp only [faults_append]
    omega
  · simp only [List.mem_append, not_or]
    exact ⟨a6, c6⟩

theorem part_ok_mono {W : Type} (h : Header) (b1 b2 : Nat) (s : MainState W)
    (r : MainState W × List Ev) (hb : b1 ≤ b2) (hr : part_ok h b1 s r) : part_ok h b2 s r := by
  obtain ⟨a1, a2, a3, a4, a5, a6⟩ := hr
  exact ⟨a1, a2, Nat.le_trans a3 hb, a4, a5, a6⟩

theorem sensor_step_ok {W : Type} (h : Header) (d : Driver W) (i : Nat) (s : MainState W) :
    part_ok h 1 s (sensor_step h d i s) := by
  simp only [sensor_step, part_ok]
  split_ifs with h1 h2
  · simp [faults, is_fault, h1, h2]
  · simp [faults, is_fault, h1, h2, incr_error]
    omega
  · simp [faults, is_fault, h1, incr_error]
    omega

theorem read_step_ok {W : Type} (h : Header) (d : Driver W) (i : Nat) (s : MainState W) :
    part_ok h 1 s (read_step h d i s) := by
  simp only [read_step, part_ok]
  split_ifs with h1
  · simp [faults, is_fault, h1]
  · simp [faults, is_fault, h1, incr_error]
    omega

theorem maxres_step_ok {W : Type} (h : Header) (d : Driver W) (i : Nat) (s : MainState W) :
    part_ok h 1 s (maxres_step h d i s) := by
  simp only [maxres_step, part_ok]
  split_ifs with h1
  · simp [faults, is_fault, h1]
  · simp [faults, is_fault, h1, incr_error]
    omega

theorem part_ok_refl {W : Type} (h : Header) (s : MainState W) : part_ok h 0 s (s, []) := by
  simp [part_ok, faults]

theorem sensor_by_sensor_ok {W : Type} (h : Header) (d : Driver W) :
    ∀ (n : Nat) (s : MainState W), part_ok h n s (sensor_by_sensor h d n s) := by
  intro n
  induction n with
  | zero => intro s; exact part_ok_refl h s
  | succ n ih =>
    intro s
    have := part_ok_seq h 1 n s _ _ (sensor_step_ok h d (n + 1) s)
      (ih (sensor_step h d (n + 1) s).1)
    rw [Nat.add_comm] at this
    exact this

theorem for_up_ok {W : Type} (h : Header)
    (body : Nat → MainState W → MainState W × List Ev)
    (hb : ∀ i s, part_ok h 1 s (body i s)) :
    ∀ (todo i : Nat) (s : MainState W), part_ok h todo s (for_up body todo i s) := by
  intro todo
  induction todo with
  | zero => intro i s; exact part_ok_refl h s
  | succ n ih =>
    intro i s
    have := part_ok_seq h 1 n s _ _ (hb i s) (ih (i + 1) (body i s).1)
    rw [Nat.add_comm] at this
    exact this

theorem for_up_nSensors {W : Type} (h : Header)
    (body : Nat → MainState W → MainState W × List Ev)
    (hb : ∀ i s, part_ok h 1 s (body i s)) (todo i : Nat) (s : MainState W) :
    (for_up body todo i s).1.nSensors = s.nSensors :=
  (for_up_ok h body hb todo i s).2.2.2.2.1

theorem read_loops_ok {W : Type} (h : Header) (d : Driver W) (s : MainState W) :
    part_ok h (2 * s.nSensors) s (read_loops h d s) := by
  have ha := for_up_ok h (read_step h d) (read_step_ok h d) s.nSensors 0 s
  simp only [read_loops]
  split_ifs with h2
  · have hb := for_up_ok h (maxres_step h d) (maxres_step_ok h d) s.nSensors 0
      (for_up (read_step h d) s.nSensors 0 s).1
    have := part_ok_seq h _ _ _ _ _ ha hb
    rw [← Nat.two_mul] at this
    exact this
  · have := part_ok_seq h _ _ _ _ _ ha (part_ok_refl h _)
    exact part_ok_mono h _ _ _ _ (by omega) this

theorem read_all_ok {W : Type} (h : Header) (d : Driver W) (s : MainState W) :
    part_ok h (1 + 2 * s.nSensors) s (read_all h d s) := by
  simp only [read_all]
  split_ifs with h1
  · obtain ⟨c1, c2, c3, c4, c5, c6⟩ := read_loops_ok h d
      { s with world := d.delay_ms (d.DS18X20_start_meas s.world h.DS18X20_POWER_PARASITE none).1
                 h.DS18B20_TCONV_12BIT }
    refine ⟨c1, ?_, ?_, c4, c5, ?_⟩
    · simp only [faults_append]
      simp only [faults, is_fault, h1, List.countP_cons, List.countP_nil] at c2 ⊢
      simpa using c2
    · simp only [faults_append]
      simp only [faults, is_fault, h1, List.countP_cons, List.countP_nil] at c3 ⊢
      simp at c3 ⊢
      omega
    · simp only [List.mem_append, not_or]
      exact ⟨by simp, c6⟩
  · simp [part_ok, faults, is_fault, h1, incr_error]
    omega

theorem measure_ok {W : Type} (h : Header) (d : Driver W) (s : MainState W) :
    (measure h d s).1.error < 256 ∧
    (measure h d s).1.error =
      ((if s.nSensors = 0 then 1 else 0) + faults h (measure h d s).2) % 256 ∧
    faults h (measure h d s).2 ≤ 1 + 3 * s.nSensors ∧
    (measure h d s).1.gSensorIDs = s.gSensorIDs ∧
    (measure h d s).1.nSensors = s.nSensors ∧
    Ev.call_search_sensors ∉ (measure h d s).2 := by
  have key : ∀ s1 : MainState W, s1.nSensors = s.nSensors → s1.gSensorIDs = s.gSensorIDs →
      s1.error < 256 →
      (read_all h d (sensor_by_sensor h d s1.nSensors s1).1).1.error < 256 ∧
      (read_all h d (sensor_by_sensor h d s1.nSensors s1).1).1.error =
        (s1.error + faults h
          ([Ev.printf "Convert_T and Read Sensor by Sensor (reverse order)\r\n"] ++
            (sensor_by_sensor h d s1.nSensors s1).2 ++
            (read_all h d (sensor_by_sensor h d s1.nSensors s1).1).2)) % 256 ∧
      faults h
          ([Ev.printf "Convert_T and Read Sensor by Sensor (reverse order)\r\n"] ++
            (sensor_by_sensor h d s1.nSensors s1).2 ++
            (read_all h d (sensor_by_sensor h d s1.nSensors s1).1).2) ≤ 1 + 3 * s.nSensors ∧
      (read_all h d (sensor_by_sensor h d s1.nSensors s1).1).1.gSensorIDs = s.gSensorIDs ∧
      (read_all h d (sensor_by_sensor h d s1.nSensors s1).1).1.nSensors = s.nSensors ∧
      Ev.call_search_sensors ∉
          ([Ev.printf "Convert_T and Read Sensor by Sensor (reverse order)\r\n"] ++
            (sensor_by_sensor h d s1.nSensors s1).2 ++
            (read_all h d (sensor_by_sensor h d s1.nSensors s1).1).2) := by
    intro s1 hn1 ht1 he1
    have ha := sensor_by_sensor_ok h d s1.nSensors s1
    have hb := read_all_ok h d (sensor_by_sensor h d s1.nSensors s1).1
    obtain ⟨c1, c2, c3, c4, c5, c6⟩ := part_ok_seq h _ _ _ _ _ ha hb
    have hn2 : (sensor_by_sensor h d s1.nSensors s1).1.nSensors = s1.nSensors := ha.2.2.2.2.1
    simp only [] at c1 c2 c3 c4 c5 c6
    have hf : faults h
          ([Ev.printf "Convert_T and Read Sensor by Sensor (reverse order)\r\n"] ++
            (sensor_by_sensor h d s1.nSensors s1).2 ++
            (read_all h d (sensor_by_sensor h d s1.nSensors s1).1).2) =
        faults h ((sensor_by_sensor h d s1.nSensors s1).2 ++
            (read_all h d (sensor_by_sensor h d s1.nSensors s1).1).2) := by
      simp [faults, is_fault]
    have hlt := c1 he1
    refine ⟨hlt, by omega, by omega, c4.trans ht1, c5.trans hn1, ?_⟩
    · simp only [List.append_assoc, List.mem_append, not_or] at c6 ⊢
      exact ⟨by simp, c6.1, c6.2⟩
  simp only [measure]
  by_cases h0 : s.nSensors = 0
  · simp only [h0, if_true]
    have := key (incr_error { s with error := 0 }) (by simp [incr_error]) (by simp [incr_error])
      (by simp [incr_error])
    simpa [incr_error, h0] using this
  · simp only [h0, if_false]
    have := key { s with error := 0 } rfl rfl (by simp)
    simpa using this

theorem verbose_block_frame {W : Type} (h : Header) (d : Driver W) (s : MainState W) :
    (verbose_block h d s).1.error = s.error ∧
    (verbose_block h d s).1.gSensorIDs = s.gSensorIDs ∧
    (verbose_block h d s).1.nSensors = s.nSensors ∧
    Ev.call_search_sensors ∉ (verbose_block h d s).2 := by
  simp only [verbose_block]
  split_ifs <;> simp

theorem search_loop_fuel_events {W : Type} (h : Header) (d : Driver W) :
    ∀ (fuel : Nat) (s : SearchState W), ∀ ev ∈ (search_loop_fuel h d fuel s).2,
      is_start ev = false ∧ is_read ev = false ∧ ev ≠ Ev.call_search_sensors := by
  intro fuel
  induction fuel with
  | zero => intro s ev hev; simp [search_loop_fuel] at hev
  | succ fuel ih =>
    intro s ev
    simp only [search_loop_fuel]
    split_ifs with hc hp hd
    · intro hev
      simp at hev
      rcases hev with rfl | rfl <;> simp [is_start, is_read]
    · intro hev
      simp at hev
      rcases hev with rfl | rfl <;> simp [is_start, is_read]
    · intro hev
      simp only [List.mem_cons] at hev
      rcases hev with rfl | rfl | hev
      · simp [is_start, is_read]
      · simp [is_start, is_read]
      · exact ih _ ev hev
    · intro hev
      simp at hev

/-- The trace of `search_sensors` marks the call once, at its head, and holds
no measuring call. -/
theorem search_sensors_trace {W : Type} (h : Header) (d : Driver W) (w : W)
    (tbl : List (List Nat)) (id0 : List Nat) :
    ∃ post, (search_sensors h d w tbl id0).trace = Ev.call_search_sensors :: post ∧
      Ev.call_search_sensors ∉ post ∧
      ∀ ev ∈ post, is_start ev = false ∧ is_read ev = false := by
  refine ⟨[Ev.printf "Scanning Bus for DS18X20\r\n", Ev.ow_reset] ++
    (search_loop_fuel h d MAXSENSORS
      { world := d.ow_reset w, gSensorIDs := tbl, id := id0, diff := h.OW_SEARCH_FIRST,
        nSensors := 0 }).2, rfl, ?_, ?_⟩
  · intro hmem
    simp only [List.mem_cons, List.mem_append, List.not_mem_nil, or_false, reduceCtorEq,
      false_or] at hmem
    exact (search_loop_fuel_events h d _ _ _ hmem).2.2 rfl
  · intro ev hmem
    simp only [List.mem_cons, List.mem_append, List.not_mem_nil, or_false] at hmem
    rcases hmem with (rfl | rfl) | hmem
    · simp [is_start, is_read]
    · simp [is_start, is_read]
    · exact ⟨(search_loop_fuel_events h d _ _ _ hmem).1,
        (search_loop_fuel_events h d _ _ _ hmem).2.1⟩

theorem recover_rescan {W : Type} (h : Header) (d : Driver W) (s : MainState W)
    (he : s.error ≠ 0) :
    ∃ post, (recover h d s).2 =
        Ev.printf "*** problems - rescanning bus ..." :: Ev.call_search_sensors :: post ∧
      Ev.call_search_sensors ∉ post ∧
      (∀ ev ∈ post, is_start ev = false ∧ is_read ev = false) ∧
      (recover h d s).1.error = 0 := by
  obtain ⟨post, p1, p2, p3⟩ := search_sensors_trace h d s.world s.gSensorIDs s.id
  refine ⟨post ++ [Ev.printf_d (search_sensors h d s.world s.gSensorIDs s.id).ret,
    Ev.printf " DS18X20 Sensor(s) available\r\n", Ev.delay_ms 3000], ?_, ?_, ?_, ?_⟩
  · simp [recover, he, rescan, p1]
  · simp [p2]
  · intro ev hev
    simp only [List.mem_append, List.mem_cons, List.not_mem_nil, or_false] at hev
    rcases hev with hev | rfl | rfl | rfl
    · exact p3 ev hev
    · simp [is_start, is_read]
    · simp [is_start, is_read]
    · simp [is_start, is_read]
  · simp [recover, he]

theorem recover_idle {W : Type} (h : Header) (d : Driver W) (s : MainState W)
    (he : s.error = 0) :
    (recover h d s).2 = [Ev.delay_ms 3000] ∧
    (recover h d s).1.gSensorIDs = s.gSensorIDs ∧
    (recover h d s).1.nSensors = s.nSensors := by
  simp [recover, he]

/-- C1 as stated fails in a build with `DS18X20_VERBOSE`: in the cycle
`verboseFaultCycle` (one sensor, within `MAXSENSORS`) the `DS18X20_start_meas`
of the verbose block returns 1, which is not `DS18X20_OK`, and
`search_sensors` is not called. -/
theorem verbose_fault_no_rescan :
    Ev.start_meas none 1 ∈ verboseFaultCycle.2 ∧
    is_fault avrHeader (Ev.start_meas none 1) = true ∧
    Ev.call_search_sensors ∉ verboseFaultCycle.2 := by
  decide

/-- C1 (amended): in one pass of the loop of `main` with
`nSensors <= MAXSENSORS`, if at least one `DS18X20_start_meas` or temperature
read of the measuring part (lines 207-275, every such call of the cycle except
the `DS18X20_start_meas` of the `DS18X20_VERBOSE` block, whose result is
discarded) returns something other than `DS18X20_OK`, then `search_sensors` is
called exactly once in the cycle, no measuring call follows it in the cycle,
the error counter has counted the failed calls without wrapping, and it is 0
at the end of the cycle. -/
theorem cycle_fault_one_rescan {W : Type} (h : Header) (d : Driver W) (s : MainState W)
    (hn : s.nSensors ≤ MAXSENSORS)
    (hf : ∃ ev ∈ (measure h d s).2, is_fault h ev = true) :
    ∃ pre post, (main_loop_body h d s).2 = pre ++ Ev.call_search_sensors :: post ∧
      (measure h d s).2 <+: pre ∧
      Ev.call_search_sensors ∉ pre ∧ Ev.call_search_sensors ∉ post ∧
      (∀ ev ∈ post, is_start ev = false ∧ is_read ev = false) ∧
      (measure h d s).1.error =
        (if s.nSensors = 0 then 1 else 0) + faults h (measure h d s).2 ∧
      (main_loop_body h d s).1.error = 0 := by
  obtain ⟨m1, m2, m3, _, _, m6⟩ := measure_ok h d s
  obtain ⟨v1, _, _, v4⟩ := verbose_block_frame h d (measure h d s).1
  have hpos : 0 < faults h (measure h d s).2 := by
    unfold faults
    rw [List.countP_pos_iff]
    exact hf
  have hne : (verbose_block h d (measure h d s).1).1.error ≠ 0 := by
    rw [v1, m2]
    simp only [MAXSENSORS] at hn
    split_ifs <;> omega
  obtain ⟨post, p1, p2, p3, p4⟩ := recover_rescan h d _ hne
  refine ⟨(measure h d s).2 ++ (verbose_block h d (measure h d s).1).2 ++
    [Ev.printf "*** problems - rescanning bus ..."], post, ?_, ?_, ?_, p2, p3, ?_, ?_⟩
  · simp only [main_loop_body, p1, List.append_assoc, List.singleton_append]
  · exact ⟨_, (List.append_assoc _ _ _).symm⟩
  · simp only [List.mem_append, not_or]
    exact ⟨⟨m6, v4⟩, by simp⟩
  · rw [m2]
    simp only [MAXSENSORS] at hn
    split_ifs <;> omega
  · simp only [main_loop_body, p4]

theorem cycle_fault_one_rescan_witness :
    ∃ pre post, (main_loop_body avrHeader (scriptDriver avrHeader) oneFaultState).2
        = pre ++ Ev.call_search_sensors :: post ∧
      (measure avrHeader (scriptDriver avrHeader) oneFaultState).2 <+: pre ∧
      Ev.call_search_sensors ∉ pre ∧ Ev.call_search_sensors ∉ post ∧
      (∀ ev ∈ post, is_start ev = false ∧ is_read ev = false) ∧
      (measure avrHeader (scriptDriver avrHeader) oneFaultState).1.error =
        (if oneFaultState.nSensors = 0 then 1 else 0) +
          faults avrHeader (measure avrHeader (scriptDriver avrHeader) oneFaultState).2 ∧
      (main_loop_body avrHeader (scriptDriver avrHeader) oneFaultState).1.error = 0 :=
  cycle_fault_one_rescan avrHeader (scriptDriver avrHeader) oneFaultState
    (by decide) (by decide)

/-- C2 as stated fails for a sensor count of zero: in a pass from
`noSensorState` every measuring call returns `DS18X20_OK`, yet `search_sensors`
is called and both `gSensorIDs` and `nSensors` change. -/
theorem empty_registry_cycle_rescans :
    noSensorState.nSensors = 0 ∧
    (∀ ev ∈ (main_loop_body avrHeader (scriptDriver avrHeader) noSensorState).2,
      is_fault avrHeader ev = false) ∧
    Ev.call_search_sensors ∈ (main_loop_body avrHeader (scriptDriver avrHeader) noSensorState).2 ∧
    (main_loop_body avrHeader (scriptDriver avrHeader) noSensorState).1.gSensorIDs
      ≠ noSensorState.gSensorIDs ∧
    (main_loop_body avrHeader (scriptDriver avrHeader) noSensorState).1.nSensors
      ≠ noSensorState.nSensors := by
  decide

/-- C2 (amended): for every registry state and every sensor count other than
zero, a pass of the loop of `main` in which every `DS18X20_start_meas` call
and every temperature read returns `DS18X20_OK` does not call `search_sensors`
and leaves `gSensorIDs` and `nSensors` as they were. -/
theorem clean_cycle_no_rescan {W : Type} (h : Header) (d : Driver W) (s : MainState W)
    (hn : s.nSensors ≠ 0)
    (hok : ∀ ev ∈ (main_loop_body h d s).2, is_fault h ev = false) :
    Ev.call_search_sensors ∉ (main_loop_body h d s).2 ∧
    (main_loop_body h d s).1.gSensorIDs = s.gSensorIDs ∧
    (main_loop_body h d s).1.nSensors = s.nSensors := by
  obtain ⟨m1, m2, _, m4, m5, m6⟩ := measure_ok h d s
  obtain ⟨v1, v2, v3, v4⟩ := verbose_block_frame h d (measure h d s).1
  have hzero : faults h (measure h d s).2 = 0 := by
    unfold faults
    rw [List.countP_eq_zero]
    intro ev hev
    have := hok ev (by simp only [main_loop_body, List.mem_append]; exact Or.inl (Or.inl hev))
    simp [this]
  have he : (verbose_block h d (measure h d s).1).1.error = 0 := by
    rw [v1, m2, hzero]
    simp [hn]
  obtain ⟨r1, r2, r3⟩ := recover_idle h d _ he
  refine ⟨?_, ?_, ?_⟩
  · simp only [main_loop_body, r1, List.mem_append, not_or]
    exact ⟨⟨m6, v4⟩, by simp⟩
  · simp only [main_loop_body, r2, v2, m4]
  · simp only [main_loop_body, r3, v3, m5]

theorem clean_cycle_no_rescan_witness :
    Ev.call_search_sensors ∉ (main_loop_body avrHeader (scriptDriver avrHeader) twoSensorState).2 ∧
    (main_loop_body avrHeader (scriptDriver avrHeader) twoSensorState).1.gSensorIDs
      = twoSensorState.gSensorIDs ∧
    (main_loop_body avrHeader (scriptDriver avrHeader) twoSensorState).1.nSensors
      = twoSensorState.nSensors :=
  clean_cycle_no_rescan avrHeader (scriptDriver avrHeader) twoSensorState
    (by decide) (by decide)

/-! ## Reads come after the conversion delay -/

theorem is_start_elim (ev : Ev) (hs : is_start ev = true) : ∃ t r, ev = Ev.start_meas t r := by
  cases ev <;> simp [is_start] at hs
  exact ⟨_, _, rfl⟩

theorem is_start_of_is_read (ev : Ev) (hr : is_read ev = true) : is_start ev = false := by
  cases ev <;> simp [is_read] at hr <;> rfl

theorem conv_run_append (h : Header) : ∀ (a b : List Ev) (c : Conv),
    conv_run h c (a ++ b) = (conv_run h c a).bind (fun c1 => conv_run h c1 b) := by
  intro a
  induction a with
  | nil => intro b c; rfl
  | cons ev a ih =>
    intro b c
    simp only [List.cons_append, conv_run]
    cases conv_step h c ev with
    | none => rfl
    | some c1 => exact ih b c1

theorem conv_safe_append (h : Header) (a b : List Ev) (ha : conv_safe h a)
    (hb : conv_safe h b) : conv_safe h (a ++ b) := by
  intro c
  obtain ⟨c1, h1⟩ := ha c
  obtain ⟨c2, h2⟩ := hb c1
  exact ⟨c2, by rw [conv_run_append, h1]; exact h2⟩

theorem conv_safe_nil (h : Header) : conv_safe h [] := fun c => ⟨c, rfl⟩

theorem conv_safe_of_no_read (h : Header) : ∀ (a : List Ev),
    (∀ ev ∈ a, is_read ev = false) → conv_safe h a := by
  intro a
  induction a with
  | nil => intro _; exact conv_safe_nil h
  | cons ev a ih =>
    intro ha c
    have hev : is_read ev = false := ha ev (List.mem_cons_self _ _)
    have hstep : ∃ c1, conv_step h c ev = some c1 := by
      by_cases hs : is_start ev = true
      · exact ⟨Conv.started, by simp [conv_step, hs]⟩
      · by_cases hc : c = Conv.started
        · by_cases hd : ev = Ev.delay_ms h.DS18B20_TCONV_12BIT
          · exact ⟨Conv.ready, by simp [conv_step, hc, hd, is_start, is_read]⟩
          · exact ⟨Conv.idle, by simp [conv_step, hs, hev, hc, hd]⟩
        · exact ⟨c, by simp [conv_step, hs, hev, hc]⟩
    obtain ⟨c1, h1⟩ := hstep
    obtain ⟨c2, h2⟩ := ih (fun e he => ha e (List.mem_cons_of_mem _ he)) c1
    exact ⟨c2, by simp only [conv_run, h1]; exact h2⟩

theorem conv_run_ready (h : Header) : ∀ (a : List Ev),
    (∀ ev ∈ a, is_start ev = false) → conv_run h Conv.ready a = some Conv.ready := by
  intro a
  induction a with
  | nil => intro _; rfl
  | cons ev a ih =>
    intro ha
    have hev : is_start ev = false := ha ev (List.mem_cons_self _ _)
    have hstep : conv_step h Conv.ready ev = some Conv.ready := by
      unfold conv_step
      simp [hev]
    simp only [conv_run, hstep]
    exact ih (fun e he => ha e (List.mem_cons_of_mem _ he))

theorem conv_safe_start_delay (h : Header) (t : Option Nat) (r : Nat) (a : List Ev)
    (ha : ∀ ev ∈ a, is_start ev = false) :
    conv_safe h (Ev.start_meas t r :: Ev.delay_ms h.DS18B20_TCONV_12BIT :: a) := by
  intro c
  refine ⟨Conv.ready, ?_⟩
  have h1 : conv_step h c (Ev.start_meas t r) = some Conv.started := by
    simp [conv_step, is_start]
  have h2 : conv_step h Conv.started (Ev.delay_ms h.DS18B20_TCONV_12BIT) = some Conv.ready := by
    simp [conv_step, is_start, is_read]
  simp only [conv_run, h1, h2]
  exact conv_run_ready h a ha

theorem for_up_events {W : Type} (P : Ev → Prop)
    (body : Nat → MainState W → MainState W × List Ev)
    (hb : ∀ i s, ∀ ev ∈ (body i s).2, P ev) :
    ∀ (todo i : Nat) (s : MainState W), ∀ ev ∈ (for_up body todo i s).2, P ev := by
  intro todo
  induction todo with
  | zero => intro i s ev hev; simp [for_up] at hev
  | succ n ih =>
    intro i s ev hev
    simp only [for_up, List.mem_append] at hev
    rcases hev with hev | hev
    · exact hb i s ev hev
    · exact ih _ _ ev hev

theorem read_loops_no_start {W : Type} (h : Header) (d : Driver W) (s : MainState W) :
    ∀ ev ∈ (read_loops h d s).2, is_start ev = false := by
  have h1 : ∀ i (s : MainState W), ∀ ev ∈ (read_step h d i s).2, is_start ev = false := by
    intro i s
    simp only [read_step]
    split_ifs <;> simp [is_start]
  have h2 : ∀ i (s : MainState W), ∀ ev ∈ (maxres_step h d i s).2, is_start ev = false := by
    intro i s
    simp only [maxres_step]
    split_ifs <;> simp [is_start]
  intro ev hev
  simp only [read_loops] at hev
  split_ifs at hev
  · simp only [List.mem_append] at hev
    rcases hev with hev | hev
    · exact for_up_events _ _ h1 _ _ _ ev hev
    · exact for_up_events _ _ h2 _ _ _ ev hev
  · simp only [List.append_nil] at hev
    exact for_up_events _ _ h1 _ _ _ ev hev

theorem sensor_step_safe {W : Type} (h : Header) (d : Driver W) (i : Nat) (s : MainState W) :
    conv_safe h (sensor_step h d i s).2 := by
  simp only [sensor_step]
  split_ifs
  · exact conv_safe_start_delay h _ _ _ (by simp [is_start])
  · exact conv_safe_start_delay h _ _ _ (by simp [is_start])
  · exact conv_safe_of_no_read h _ (by simp [is_read])

theorem sensor_by_sensor_safe {W : Type} (h : Header) (d : Driver W) :
    ∀ (n : Nat) (s : MainState W), conv_safe h (sensor_by_sensor h d n s).2 := by
  intro n
  induction n with
  | zero => intro s; exact conv_safe_nil h
  | succ n ih =>
    intro s
    exact conv_safe_append h _ _ (sensor_step_safe h d (n + 1) s) (ih _)

theorem read_all_safe {W : Type} (h : Header) (d : Driver W) (s : MainState W) :
    conv_safe h (read_all h d s).2 := by
  simp only [read_all]
  split_ifs
  · exact conv_safe_append h [_] _ (conv_safe_of_no_read h _ (by simp [is_read]))
      (conv_safe_start_delay h _ _ _ (read_loops_no_start h d _))
  · exact conv_safe_of_no_read h _ (by simp [is_read])

theorem search_sensors_no_read {W : Type} (h : Header) (d : Driver W) (w : W)
    (tbl : List (List Nat)) (id0 : List Nat) :
    ∀ ev ∈ (search_sensors h d w tbl id0).trace, is_read ev = false := by
  obtain ⟨post, p1, _, p3⟩ := search_sensors_trace h d w tbl id0
  intro ev hev
  rw [p1] at hev
  simp only [List.mem_cons] at hev
  rcases hev with rfl | hev
  · rfl
  · exact (p3 ev hev).2

theorem main_loop_body_safe {W : Type} (h : Header) (d : Driver W) (s : MainState W) :
    conv_safe h (main_loop_body h d s).2 := by
  simp only [main_loop_body]
  refine conv_safe_append h _ _ (conv_safe_append h _ _ ?_ ?_) ?_
  · simp only [measure]
    exact conv_safe_append h _ _
      (conv_safe_append h [_] _ (conv_safe_of_no_read h _ (by simp [is_read]))
        (sensor_by_sensor_safe h d _ _))
      (read_all_safe h d _)
  · simp only [verbose_block]
    split_ifs
    · exact conv_safe_of_no_read h _ (by simp [is_read])
    · exact conv_safe_nil h
  · simp only [recover, rescan]
    split_ifs
    · refine conv_safe_append h _ _ (conv_safe_append h [_] _
        (conv_safe_of_no_read h _ (by simp [is_read]))
        (conv_safe_of_no_read h _ (search_sensors_no_read h d _ _ _)))
        (conv_safe_of_no_read h _ (by simp [is_read]))
    · exact conv_safe_of_no_read h _ (by simp [is_read])

theorem main_cycles_safe {W : Type} (h : Header) (d : Driver W) :
    ∀ (k : Nat) (s : MainState W), conv_safe h (main_cycles h d k s).2 := by
  intro k
  induction k with
  | zero => intro s; exact conv_safe_nil h
  | succ k ih =>
    intro s
    exact conv_safe_append h _ _ (main_loop_body_safe h d s) (ih _)

theorem eeprom_test_no_read {W : Type} (h : Header) (d : Driver W) (w : W)
    (tbl : List (List Nat)) (sp0 : List Nat) :
    ∀ ev ∈ (eeprom_test h d w tbl sp0).trace, is_read ev = false := by
  intro ev hev
  simp only [eeprom_test, th_tl_dump, List.mem_append, List.mem_cons, List.not_mem_nil,
    or_false] at hev
  split_ifs at hev <;>
    (rcases hev with ((((((((rfl | hev) | hev) | hev) | hev) | hev) | hev) | hev) | hev) <;>
     first
     | rfl
     | (rcases hev with rfl | rfl | rfl | rfl | rfl | rfl <;> rfl))

theorem list_block_safe {W : Type} (h : Header) (s : MainState W) :
    conv_safe h (list_block h s).2 := by
  have hlist : ∀ i (s : MainState W), ∀ ev ∈ (list_step i s).2, is_read ev = false := by
    intro i s
    simp [list_step, is_read]
  simp only [list_block]
  split_ifs
  · exact conv_safe_of_no_read h _ (for_up_events _ _ hlist _ _ _)
  · exact conv_safe_nil h

theorem eeprom_block_safe {W : Type} (h : Header) (d : Driver W) (s : MainState W) :
    conv_safe h (eeprom_block h d s).2 := by
  simp only [eeprom_block]
  split_ifs
  · exact conv_safe_of_no_read h _ (eeprom_test_no_read h d _ _ _)
  · exact conv_safe_nil h

theorem single_demo_safe {W : Type} (h : Header) (d : Driver W) (s : MainState W) :
    conv_safe h (single_demo h d s).2 := by
  simp only [single_demo]
  split_ifs
  · exact conv_safe_append h [_] _ (conv_safe_of_no_read h _ (by simp [is_read]))
      (conv_safe_start_delay h _ _ _ (by simp [is_start]))
  · exact conv_safe_nil h

theorem main_init_safe {W : Type} (h : Header) (d : Driver W) (s : MainState W) :
    conv_safe h (main_init h d s).2 := by
  have hclass : ∀ i (s : MainState W), ∀ ev ∈ (classify_step h d i s).2, is_read ev = false := by
    intro i s
    simp [classify_step, is_read]
  have hbus : conv_safe h (if h.OW_ONE_BUS then [] else [Ev.ow_set_bus]) := by
    split_ifs
    · exact conv_safe_nil h
    · exact conv_safe_of_no_read h _ (by simp [is_read])
  simp only [main_init]
  exact conv_safe_append h _ _ (conv_safe_append h _ _ (conv_safe_append h _ _
    (conv_safe_append h _ _ (conv_safe_append h _ _ (conv_safe_append h _ _
    (conv_safe_append h _ _ (conv_safe_append h _ _
      (conv_safe_of_no_read h _ (by simp [is_read]))
      hbus)
      (conv_safe_of_no_read h _ (by simp [is_read])))
      (conv_safe_of_no_read h _ (search_sensors_no_read h d _ _ _)))
      (conv_safe_of_no_read h _ (by simp [is_read])))
      (list_block_safe h _))
      (conv_safe_of_no_read h _ (for_up_events _ _ hclass _ _ _)))
      (eeprom_block_safe h d _))
      (single_demo_safe h d _)

theorem main_safe {W : Type} (h : Header) (d : Driver W) (k : Nat) (s : MainState W) :
    conv_safe h (main h d k s).2 :=
  conv_safe_append h _ _ (main_init_safe h d s) (main_cycles_safe h d k _)

/-- A trace that the conversion automaton accepts from state `c` has every
read behind a start that is directly followed by the conversion delay, with no
start in between; the start and the delay may lie before the trace when `c`
says so. -/
theorem conv_run_guarded (h : Header) : ∀ (tr : List Ev) (c c1 : Conv),
    conv_run h c tr = some c1 →
    ∀ (a : List Ev) (ev : Ev) (b : List Ev), tr = a ++ ev :: b → is_read ev = true →
      (c = Conv.ready ∧ ∀ e ∈ a, is_start e = false) ∨
      (c = Conv.started ∧ ∃ y, a = Ev.delay_ms h.DS18B20_TCONV_12BIT :: y ∧
        ∀ e ∈ y, is_start e = false) ∨
      (∃ x t r y, a = x ++ Ev.start_meas t r :: Ev.delay_ms h.DS18B20_TCONV_12BIT :: y ∧
        ∀ e ∈ y, is_start e = false) := by
  intro tr
  induction tr with
  | nil =>
    intro c c1 _ a ev b htr
    simp at htr
  | cons e0 tr ih =>
    intro c c1 hrun a ev b htr hr
    simp only [conv_run] at hrun
    cases hstep : conv_step h c e0 with
    | none => simp [hstep] at hrun
    | some c2 =>
      simp only [hstep] at hrun
      cases a with
      | nil =>
        simp only [List.nil_append, List.cons.injEq] at htr
        obtain ⟨rfl, rfl⟩ := htr
        left
        refine ⟨?_, by simp⟩
        have hs := is_start_of_is_read e0 hr
        by_contra hc
        simp [conv_step, hs, hr, hc] at hstep
      | cons a0 a =>
        simp only [List.cons_append, List.cons.injEq] at htr
        obtain ⟨rfl, rfl⟩ := htr
        rcases ih c2 c1 hrun a ev b rfl hr with ⟨hc2, hns⟩ | ⟨hc2, y, hy, hns⟩ | ⟨x, t, r, y, hy, hns⟩
        · subst hc2
          by_cases hs : is_start e0 = true
          · simp [conv_step, hs] at hstep
          · have hs2 : is_start e0 = false := by simpa using hs
            by_cases hcs : c = Conv.started
            · by_cases hre : is_read e0 = true
              · simp [conv_step, hs2, hre, hcs] at hstep
              · by_cases hd : e0 = Ev.delay_ms h.DS18B20_TCONV_12BIT
                · right; left
                  exact ⟨hcs, a, by rw [hd], hns⟩
                · simp [conv_step, hs2, hre, hcs, hd] at hstep
            · left
              have hcr : c = Conv.ready := by
                by_cases hre : is_read e0 = true
                · by_contra hc
                  simp [conv_step, hs2, hre, hc] at hstep
                · simpa [conv_step, hs2, hre, hcs] using hstep
              refine ⟨hcr, ?_⟩
              intro e he
              simp only [List.mem_cons] at he
              rcases he with rfl | he
              · exact hs2
              · exact hns e he
        · subst hc2
          by_cases hs : is_start e0 = true
          · obtain ⟨t, r, rfl⟩ := is_start_elim e0 hs
            right; right
            exact ⟨[], t, r, y, by rw [hy]; rfl, hns⟩
          · have hs2 : is_start e0 = false := by simpa using hs
            exfalso
            by_cases hre : is_read e0 = true
            · by_cases hc : c = Conv.ready
              · simp [conv_step, hs2, hre, hc] at hstep
              · simp [conv_step, hs2, hre, hc] at hstep
            · by_cases hcs : c = Conv.started
              · by_cases hd : e0 = Ev.delay_ms h.DS18B20_TCONV_12BIT
                · simp [conv_step, hcs, hd, is_start, is_read] at hstep
                · simp [conv_step, hs2, hre, hcs, hd] at hstep
              · simp [conv_step, hs2, hre, hcs] at hstep
        · right; right
          exact ⟨e0 :: x, t, r, y, by rw [hy]; rfl, hns⟩

/-- C9: in every execution of `main`, observed up to the end of any pass `k`
of its loop, each temperature read (`DS18X20_read_decicelsius`,
`DS18X20_read_decicelsius_single`, `DS18X20_read_maxres`) has before it in the
trace a `DS18X20_start_meas` call directly followed by the complete
`_delay_ms(DS18B20_TCONV_12BIT)`, and no `DS18X20_start_meas` lies between that
delay and the read. -/
theorem reads_follow_conversion {W : Type} (h : Header) (d : Driver W) (k : Nat)
    (s : MainState W) (a : List Ev) (ev : Ev) (b : List Ev)
    (htr : (main h d k s).2 = a ++ ev :: b) (hr : is_read ev = true) :
    ∃ x t r y, a = x ++ Ev.start_meas t r :: Ev.delay_ms h.DS18B20_TCONV_12BIT :: y ∧
      ∀ e ∈ y, is_start e = false := by
  obtain ⟨c1, hrun⟩ := main_safe h d k s Conv.idle
  rcases conv_run_guarded h _ _ _ hrun a ev b htr hr with ⟨hc, _⟩ | ⟨hc, _⟩ | hx
  · exact absurd hc (by decide)
  · exact absurd hc (by decide)
  · exact hx

theorem reads_follow_conversion_witness :
    ∃ x t r y, oneSensorRun.take 31 =
        x ++ Ev.start_meas t r :: Ev.delay_ms plainHeader.DS18B20_TCONV_12BIT :: y ∧
      ∀ e ∈ y, is_start e = false :=
  reads_follow_conversion plainHeader (scriptDriver plainHeader) 1
    (scriptState { finds := [(0, codeA)], results := [] } zeroTable 0)
    (oneSensorRun.take 31) (Ev.read_decicelsius 0 0) (oneSensorRun.drop 32)
    (by decide) (by decide)

end DS18X20Demo
